import Mathlib

/-!
# Verification development for the go-mod-core-contracts HTTP clients

Shallow embedding of

* `v2/clients/http/deviceprofile.go` (the `DeviceProfileClient` with its resource cache),
* `clients/http/transmission.go` (the `TransmissionClient`),
* the response constructors exercised by `v2/dtos/responses/event_test.go`,

together with the Go standard-library functions the clients call
(`path.Join`, `path.Clean`, `url.QueryEscape`, `url.QueryUnescape`, `strconv.Itoa`,
`url.Values.Set`, `fmt.Sprintf("%s:%s", ..)`).

A Go `string` is a finite sequence of bytes; it is embedded as `List (Fin 256)`.
The `sync.RWMutex` of the device-profile client is not part of the embedding: every
method is modelled as one sequential, atomic step on the client state.
-/

namespace GoContracts

/-! ## Go strings -/

/-- A Go byte. -/
abbrev Byte := Fin 256

/-- A Go `string`: an immutable sequence of bytes. -/
abbrev GoString := List Byte

/-- The Go string denoted by an ASCII literal. -/
def gs (s : String) : GoString := s.toList.map (fun ch => Fin.ofNat ch.toNat)

/-- Byte `'/'`. -/
def bSlash : Byte := 47
/-- Byte `'.'`. -/
def bDot : Byte := 46
/-- Byte `'%'`. -/
def bPercent : Byte := 37
/-- Byte `'+'`. -/
def bPlus : Byte := 43
/-- Byte `' '`. -/
def bSpace : Byte := 32
/-- Byte `':'`. -/
def bColon : Byte := 58
/-- Byte `'-'`. -/
def bMinus : Byte := 45

/-- The string `"."`. -/
def sDot : GoString := [bDot]
/-- The string `".."`. -/
def sDotDot : GoString := [bDot, bDot]

/-! ## Package `path` -/

namespace path

/-- The path elements of a string: the pieces between the `'/'` bytes
(`strings.Split(p, "/")`). -/
def elements : GoString → List GoString
  | [] => [[]]
  | b :: rest =>
    if b = bSlash then [] :: elements rest
    else
      match elements rest with
      | [] => [[b]]
      | e :: es => (b :: e) :: es

/-- The output buffer of `path.Clean`, kept element-wise: `out` holds the elements written
so far and `dotdot` is the number of leading elements of `out` that `..` must not remove
(the leading `../../..` run of a path that is not rooted). -/
structure CleanBuf where
  out : List GoString
  dotdot : Nat
deriving DecidableEq, Repr

/-- One iteration of the element loop of `path.Clean`:
* an empty element and a `.` element are skipped;
* a `..` element removes the last written element when it can backtrack
  (`out.w > dotdot`), is dropped when the path is rooted, and is appended otherwise
  (moving `dotdot` to the end of the buffer);
* a real element is appended. -/
def cleanStep (rooted : Bool) (buf : CleanBuf) (e : GoString) : CleanBuf :=
  if e = [] then buf
  else if e = sDot then buf
  else if e = sDotDot then
    if buf.dotdot < buf.out.length then { buf with out := buf.out.dropLast }
    else if rooted then buf
    else { out := buf.out ++ [sDotDot], dotdot := buf.out.length + 1 }
  else { buf with out := buf.out ++ [e] }

/-- The elements of a buffer joined with single slashes. -/
def joinElems : List GoString → GoString
  | [] => []
  | [e] => e
  | e :: es => e ++ bSlash :: joinElems es

/-- Go `path.Clean`: the shortest path name equivalent to `p` by purely lexical
processing (multiple slashes collapsed, `.` elements eliminated, inner `..` elements
eliminated with the element before them, `..` at the start of a rooted path eliminated);
the empty result is `"."`. -/
def Clean (p : GoString) : GoString :=
  if p = [] then sDot
  else
    let rooted := decide (p.head? = some bSlash)
    let buf := (elements p).foldl (cleanStep rooted) { out := [], dotdot := 0 }
    if rooted then bSlash :: joinElems buf.out
    else if buf.out = [] then sDot
    else joinElems buf.out

/-- The buffer loop of `path.Join`: an element is appended once the buffer is non-empty or
the element is non-empty, with a separating slash when the buffer is non-empty. -/
def joinBuf (buf : GoString) : List GoString → GoString
  | [] => buf
  | e :: es =>
    if buf ≠ [] ∨ e ≠ [] then
      joinBuf ((if buf ≠ [] then buf ++ [bSlash] else buf) ++ e) es
    else joinBuf buf es

/-- Go `path.Join`: joins the elements with slashes, ignoring leading empty elements, and
cleans the result; when every element is empty the result is the empty string. -/
def Join (elem : List GoString) : GoString :=
  if (elem.map List.length).sum = 0 then []
  else Clean (joinBuf [] elem)

end path

/-! ## Package `net/url` -/

namespace url

/-- Go `url.shouldEscape(c, encodeQueryComponent)`: everything but the unreserved
characters (letters, digits, `-`, `_`, `.`, `~`) is escaped. -/
def shouldEscape (c : Byte) : Bool :=
  if (97 ≤ c.val ∧ c.val ≤ 122) ∨ (65 ≤ c.val ∧ c.val ≤ 90) ∨ (48 ≤ c.val ∧ c.val ≤ 57) then false
  else if c.val = 45 ∨ c.val = 95 ∨ c.val = 46 ∨ c.val = 126 then false
  else true

/-- The digit `"0123456789ABCDEF"[d]` (for `d < 16`). -/
def upperhex (d : Nat) : Byte :=
  if d < 10 then Fin.ofNat (48 + d) else Fin.ofNat (55 + d)

/-- Go `url.ishex`. -/
def ishex (c : Byte) : Bool :=
  (48 ≤ c.val ∧ c.val ≤ 57) ∨ (97 ≤ c.val ∧ c.val ≤ 102) ∨ (65 ≤ c.val ∧ c.val ≤ 70)

/-- Go `url.unhex`. -/
def unhex (c : Byte) : Nat :=
  if 48 ≤ c.val ∧ c.val ≤ 57 then c.val - 48
  else if 97 ≤ c.val ∧ c.val ≤ 102 then c.val - 97 + 10
  else if 65 ≤ c.val ∧ c.val ≤ 70 then c.val - 65 + 10
  else 0

/-- The bytes written for one input byte by `url.escape(s, encodeQueryComponent)`. -/
def escapeByte (c : Byte) : GoString :=
  if c = bSpace then [bPlus]
  else if shouldEscape c then [bPercent, upperhex (c.val / 16), upperhex (c.val % 16)]
  else [c]

/-- Go `url.QueryEscape`. -/
def QueryEscape : GoString → GoString
  | [] => []
  | c :: rest => escapeByte c ++ QueryEscape rest

/-- Go `url.QueryUnescape`: `%XX` becomes the byte `XX`, `+` becomes a space, and a `%`
that is not followed by two hexadecimal digits is an error (`none`). -/
def QueryUnescape : GoString → Option GoString
  | [] => some []
  | c :: rest =>
    if c = bPercent then
      match rest with
      | h1 :: h2 :: rest2 =>
        if ishex h1 ∧ ishex h2 then
          (QueryUnescape rest2).map (fun t => Fin.ofNat (unhex h1 * 16 + unhex h2) :: t)
        else none
      | _ => none
    else if c = bPlus then (QueryUnescape rest).map (fun t => bSpace :: t)
    else (QueryUnescape rest).map (fun t => c :: t)

/-- Go `url.Values` (`map[string][]string`), as the lookup function of the map. -/
abbrev Values := GoString → Option (List GoString)

/-- The empty `url.Values{}`. -/
def Values.empty : Values := fun _ => none

/-- Go `url.Values.Set`: `v[key] = []string{value}`. -/
def Values.Set (v : Values) (key value : GoString) : Values :=
  fun k => if k = key then some [value] else v k

end url

/-! ## Package `strconv` and `strings` -/

namespace strconv

/-- The decimal digits of `u`, most significant first, written in front of `acc`
(the digit loop of `strconv.formatBits` in base 10). -/
def formatBits : Nat → Nat → GoString → GoString
  | 0, _, acc => acc
  | fuel + 1, u, acc =>
    if u < 10 then (Fin.ofNat (48 + u)) :: acc
    else formatBits fuel (u / 10) (Fin.ofNat (48 + u % 10) :: acc)

/-- Go `strconv.Itoa`: the decimal rendering of an integer, with a leading `-` for a
negative one. -/
def Itoa (i : Int) : GoString :=
  if i < 0 then bMinus :: formatBits (i.natAbs + 1) i.natAbs []
  else formatBits (i.natAbs + 1) i.natAbs []

end strconv

namespace strings

/-- Go `strings.Join`. -/
def Join : List GoString → GoString → GoString
  | [], _ => []
  | [e], _ => e
  | e :: es, sep => e ++ sep ++ Join es sep

end strings

/-! ## Package `errors` -/

namespace errors

/-- Modelled from the spec: the error type `errors.EdgeX` with its constructor
`NewCommonEdgeXWrapper` is not among the sources at hand. The spec (section 7) describes
"a single wrapped-error kind carrying an underlying cause plus an optional HTTP-derived
status/kind classification": an error has a classification `kind`, a message, and either
no cause (`base`) or an underlying cause (`wrapped`). -/
inductive EdgeX where
  | base (kind : GoString) (message : GoString)
  | wrapped (kind : GoString) (message : GoString) (cause : EdgeX)
deriving DecidableEq, Repr

/-- Modelled from the spec: `errors.Kind`, the classification carried by an error. -/
def Kind : EdgeX → GoString
  | .base kind _ => kind
  | .wrapped kind _ _ => kind

/-- Modelled from the spec: the underlying cause of an error, when it has one. -/
def Cause : EdgeX → Option EdgeX
  | .base _ _ => none
  | .wrapped _ _ cause => some cause

/-- Modelled from the spec: `errors.NewCommonEdgeXWrapper` is not among the sources at
hand; per the spec (section 7) a client method "returns the wrapped error verbatim": the
wrapper carries the given error as its cause and keeps its classification. -/
def NewCommonEdgeXWrapper (wrappedError : EdgeX) : EdgeX :=
  .wrapped (Kind wrappedError) [] wrappedError

end errors

/-! ## The transport helper (package `utils`) -/

/-- The HTTP verb of a transport request. -/
inductive Verb where
  | GET | POST | PUT | DELETE
deriving DecidableEq, Repr

/-- One request handed to the transport helper: the verb, the base URL (for the helpers
that take one URL, that URL), the request path and the query parameters (`none` is Go
`nil`). -/
structure Call where
  verb : Verb
  baseUrl : GoString
  requestPath : GoString
  requestParams : Option url.Values

/-- What a client method hands back: the result value, the error (`none` is Go `nil`) and,
as instrumentation, the requests it handed to the transport helper, in order. -/
structure Result (α : Type) where
  res : α
  edgexError : Option errors.EdgeX
  calls : List Call

/-- One request handed to the transport helper of the transmission client, which also
receives the authentication injector of the client. -/
structure CallAuth (Auth : Type) extends Call where
  authInjector : Auth

/-- What a method of the transmission client hands back. -/
structure ResultAuth (Auth : Type) (α : Type) where
  res : α
  edgexError : Option errors.EdgeX
  calls : List (CallAuth Auth)

namespace utils

/-- The transport helper `utils.GetRequest` of the `v2` clients, an external collaborator:
it receives the current content of the result variable (passed by pointer in Go), the base
URL, the request path and the query parameters, and answers with the new content of the
result variable and an error. Its behaviour is arbitrary. -/
abbrev GetRequest (Ctx α : Type) :=
  Ctx → α → GoString → GoString → Option url.Values → α × Option errors.EdgeX

/-- The transport helper `utils.DeleteRequest` of the `v2` clients. -/
abbrev DeleteRequest (Ctx α : Type) :=
  Ctx → α → GoString → GoString → α × Option errors.EdgeX

/-- The transport helper `utils.PostRequestWithRawData` (result variable, URL, payload). -/
abbrev PostRequestWithRawData (Ctx α β : Type) :=
  Ctx → α → GoString → β → α × Option errors.EdgeX

/-- The transport helper `utils.PutRequest` (result variable, URL, payload). -/
abbrev PutRequest (Ctx α β : Type) :=
  Ctx → α → GoString → β → α × Option errors.EdgeX

/-- The transport helper `utils.PostByFileRequest` (result variable, URL, file path). -/
abbrev PostByFileRequest (Ctx α : Type) :=
  Ctx → α → GoString → GoString → α × Option errors.EdgeX

/-- The transport helper `utils.PutByFileRequest` (result variable, URL, file path). -/
abbrev PutByFileRequest (Ctx α : Type) :=
  Ctx → α → GoString → GoString → α × Option errors.EdgeX

/-- The transport helper `utils.GetRequest` of the transmission client, which also receives
the authentication injector. -/
abbrev GetRequestAuth (Ctx Auth α : Type) :=
  Ctx → α → GoString → GoString → Option url.Values → Auth → α × Option errors.EdgeX

/-- The transport helper `utils.DeleteRequest` of the transmission client, which also
receives the authentication injector. -/
abbrev DeleteRequestAuth (Ctx Auth α : Type) :=
  Ctx → α → GoString → GoString → Auth → α × Option errors.EdgeX

end utils

/-! ## Package `v2`: route constants -/

namespace v2

/-- The route and field-name constants of package `v2` that the device-profile client
uses. Their values are not among the sources at hand and are taken as parameters. -/
structure Constants where
  ApiDeviceProfileRoute : GoString
  ApiDeviceProfileUploadFileRoute : GoString
  ApiAllDeviceProfileRoute : GoString
  ApiDeviceResourceRoute : GoString
  Name : GoString
  Model : GoString
  Manufacturer : GoString
  Profile : GoString
  Resource : GoString
  Labels : GoString
  CommaSeparator : GoString
  Offset : GoString
  Limit : GoString

end v2

/-! ## `v2/clients/http/deviceprofile.go` -/

/-- The state of a `DeviceProfileClient`: the base URL and the resource cache
(`map[string]responses.DeviceResourceResponse`, as the lookup function of the map). -/
structure DeviceProfileClient (Res : Type) where
  baseUrl : GoString
  resourcesCache : GoString → Option Res

namespace DeviceProfileClient

variable {Ctx Res : Type}

/-- `NewDeviceProfileClient` creates an instance of `DeviceProfileClient`
(with an empty cache). -/
def NewDeviceProfileClient (baseUrl : GoString) : DeviceProfileClient Res :=
  { baseUrl := baseUrl, resourcesCache := fun _ => none }

/-- `resourceByMapKey`: the map lookup `res, exists = client.resourcesCache[key]`
(a missing key gives the zero value and `false`). -/
def resourceByMapKey [Inhabited Res] (client : DeviceProfileClient Res) (key : GoString) :
    Res × Bool :=
  match client.resourcesCache key with
  | some res => (res, true)
  | none => (default, false)

/-- `setResourceWithMapKey`: `client.resourcesCache[key] = res`. -/
def setResourceWithMapKey (client : DeviceProfileClient Res) (res : Res) (key : GoString) :
    DeviceProfileClient Res :=
  { client with resourcesCache := fun k => if k = key then some res else client.resourcesCache k }

/-- `CleanResourcesCache`: the cache is replaced by a fresh empty map. -/
def CleanResourcesCache (client : DeviceProfileClient Res) : DeviceProfileClient Res :=
  { client with resourcesCache := fun _ => none }

/-- The cache key `fmt.Sprintf("%s:%s", profileName, resourceName)`. -/
def resourceMapKey (profileName resourceName : GoString) : GoString :=
  profileName ++ bColon :: resourceName

/-- `Add` adds new device profiles. -/
def Add {Reqs Resp : Type} [Inhabited Resp]
    (k : v2.Constants)
    (PostRequestWithRawData : utils.PostRequestWithRawData Ctx Resp Reqs)
    (client : DeviceProfileClient Res) (ctx : Ctx) (reqs : Reqs) : Result Resp :=
  let responses : Resp := default
  let url := client.baseUrl ++ k.ApiDeviceProfileRoute
  let (responses, err) := PostRequestWithRawData ctx responses url reqs
  let calls := [{ verb := .POST, baseUrl := url, requestPath := [], requestParams := none }]
  match err with
  | some err =>
    { res := responses, edgexError := some (errors.NewCommonEdgeXWrapper err), calls := calls }
  | none => { res := responses, edgexError := none, calls := calls }

/-- `Update` updates device profiles. -/
def Update {Reqs Resp : Type} [Inhabited Resp]
    (k : v2.Constants)
    (PutRequest : utils.PutRequest Ctx Resp Reqs)
    (client : DeviceProfileClient Res) (ctx : Ctx) (reqs : Reqs) : Result Resp :=
  let responses : Resp := default
  let url := client.baseUrl ++ k.ApiDeviceProfileRoute
  let (responses, err) := PutRequest ctx responses url reqs
  let calls := [{ verb := .PUT, baseUrl := url, requestPath := [], requestParams := none }]
  match err with
  | some err =>
    { res := responses, edgexError := some (errors.NewCommonEdgeXWrapper err), calls := calls }
  | none => { res := responses, edgexError := none, calls := calls }

/-- `AddByYaml` adds a new device profile by uploading a yaml file. -/
def AddByYaml {Resp : Type} [Inhabited Resp]
    (k : v2.Constants)
    (PostByFileRequest : utils.PostByFileRequest Ctx Resp)
    (client : DeviceProfileClient Res) (ctx : Ctx) (yamlFilePath : GoString) :
    Result Resp :=
  let responses : Resp := default
  let url := client.baseUrl ++ k.ApiDeviceProfileUploadFileRoute
  let (responses, err) := PostByFileRequest ctx responses url yamlFilePath
  let calls := [{ verb := .POST, baseUrl := url, requestPath := [], requestParams := none }]
  match err with
  | some err =>
    { res := responses, edgexError := some (errors.NewCommonEdgeXWrapper err), calls := calls }
  | none => { res := responses, edgexError := none, calls := calls }

/-- `UpdateByYaml` updates a device profile by uploading a yaml file. -/
def UpdateByYaml {Resp : Type} [Inhabited Resp]
    (k : v2.Constants)
    (PutByFileRequest : utils.PutByFileRequest Ctx Resp)
    (client : DeviceProfileClient Res) (ctx : Ctx) (yamlFilePath : GoString) :
    Result Resp :=
  let responses : Resp := default
  let url := client.baseUrl ++ k.ApiDeviceProfileUploadFileRoute
  let (responses, err) := PutByFileRequest ctx responses url yamlFilePath
  let calls := [{ verb := .PUT, baseUrl := url, requestPath := [], requestParams := none }]
  match err with
  | some err =>
    { res := responses, edgexError := some (errors.NewCommonEdgeXWrapper err), calls := calls }
  | none => { res := responses, edgexError := none, calls := calls }

/-- `DeleteByName` deletes the device profile by name. -/
def DeleteByName {Resp : Type} [Inhabited Resp]
    (k : v2.Constants)
    (DeleteRequest : utils.DeleteRequest Ctx Resp)
    (client : DeviceProfileClient Res) (ctx : Ctx) (name : GoString) : Result Resp :=
  let response : Resp := default
  let requestPath := path.Join [k.ApiDeviceProfileRoute, k.Name, url.QueryEscape name]
  let (response, err) := DeleteRequest ctx response client.baseUrl requestPath
  let calls := [{ verb := .DELETE, baseUrl := client.baseUrl, requestPath := requestPath,
                  requestParams := none }]
  match err with
  | some err =>
    { res := response, edgexError := some (errors.NewCommonEdgeXWrapper err), calls := calls }
  | none => { res := response, edgexError := none, calls := calls }

/-- `DeviceProfileByName` queries the device profile by name. -/
def DeviceProfileByName {Resp : Type} [Inhabited Resp]
    (k : v2.Constants)
    (GetRequest : utils.GetRequest Ctx Resp)
    (client : DeviceProfileClient Res) (ctx : Ctx) (name : GoString) : Result Resp :=
  let res : Resp := default
  let requestPath := path.Join [k.ApiDeviceProfileRoute, k.Name, url.QueryEscape name]
  let (res, err) := GetRequest ctx res client.baseUrl requestPath none
  let calls := [{ verb := .GET, baseUrl := client.baseUrl, requestPath := requestPath,
                  requestParams := none }]
  match err with
  | some err =>
    { res := res, edgexError := some (errors.NewCommonEdgeXWrapper err), calls := calls }
  | none => { res := res, edgexError := none, calls := calls }

/-- `AllDeviceProfiles` queries the device profiles with labels, offset and limit. -/
def AllDeviceProfiles {Resp : Type} [Inhabited Resp]
    (k : v2.Constants)
    (GetRequest : utils.GetRequest Ctx Resp)
    (client : DeviceProfileClient Res) (ctx : Ctx) (labels : List GoString)
    (offset limit : Int) : Result Resp :=
  let res : Resp := default
  let requestParams := url.Values.empty
  let requestParams :=
    if labels.length > 0 then requestParams.Set k.Labels (strings.Join labels k.CommaSeparator)
    else requestParams
  let requestParams := requestParams.Set k.Offset (strconv.Itoa offset)
  let requestParams := requestParams.Set k.Limit (strconv.Itoa limit)
  let (res, err) :=
    GetRequest ctx res client.baseUrl k.ApiAllDeviceProfileRoute (some requestParams)
  let calls := [{ verb := .GET, baseUrl := client.baseUrl,
                  requestPath := k.ApiAllDeviceProfileRoute,
                  requestParams := some requestParams }]
  match err with
  | some err =>
    { res := res, edgexError := some (errors.NewCommonEdgeXWrapper err), calls := calls }
  | none => { res := res, edgexError := none, calls := calls }

/-- `DeviceProfilesByModel` queries the device profiles with offset, limit and model. -/
def DeviceProfilesByModel {Resp : Type} [Inhabited Resp]
    (k : v2.Constants)
    (GetRequest : utils.GetRequest Ctx Resp)
    (client : DeviceProfileClient Res) (ctx : Ctx) (model : GoString)
    (offset limit : Int) : Result Resp :=
  let res : Resp := default
  let requestPath := path.Join [k.ApiDeviceProfileRoute, k.Model, url.QueryEscape model]
  let requestParams := url.Values.empty
  let requestParams := requestParams.Set k.Offset (strconv.Itoa offset)
  let requestParams := requestParams.Set k.Limit (strconv.Itoa limit)
  let (res, err) := GetRequest ctx res client.baseUrl requestPath (some requestParams)
  let calls := [{ verb := .GET, baseUrl := client.baseUrl, requestPath := requestPath,
                  requestParams := some requestParams }]
  match err with
  | some err =>
    { res := res, edgexError := some (errors.NewCommonEdgeXWrapper err), calls := calls }
  | none => { res := res, edgexError := none, calls := calls }

/-- `DeviceProfilesByManufacturer` queries the device profiles with offset, limit and
manufacturer. -/
def DeviceProfilesByManufacturer {Resp : Type} [Inhabited Resp] (k : v2.Constants)
    (GetRequest : utils.GetRequest Ctx Resp) (client : DeviceProfileClient Res) (ctx : Ctx)
    (manufacturer : GoString) (offset limit : Int) : Result Resp :=
  let res : Resp := default
  let requestPath :=
    path.Join [k.ApiDeviceProfileRoute, k.Manufacturer, url.QueryEscape manufacturer]
  let requestParams := url.Values.empty
  let requestParams := requestParams.Set k.Offset (strconv.Itoa offset)
  let requestParams := requestParams.Set k.Limit (strconv.Itoa limit)
  let (res, err) := GetRequest ctx res client.baseUrl requestPath (some requestParams)
  let calls := [{ verb := .GET, baseUrl := client.baseUrl, requestPath := requestPath,
                  requestParams := some requestParams }]
  match err with
  | some err =>
    { res := res, edgexError := some (errors.NewCommonEdgeXWrapper err), calls := calls }
  | none => { res := res, edgexError := none, calls := calls }

/-- `DeviceProfilesByManufacturerAndModel` queries the device profiles with offset, limit,
manufacturer and model. -/
def DeviceProfilesByManufacturerAndModel {Resp : Type} [Inhabited Resp] (k : v2.Constants)
    (GetRequest : utils.GetRequest Ctx Resp) (client : DeviceProfileClient Res) (ctx : Ctx)
    (manufacturer model : GoString) (offset limit : Int) : Result Resp :=
  let res : Resp := default
  let requestPath :=
    path.Join [k.ApiDeviceProfileRoute, k.Manufacturer, url.QueryEscape manufacturer,
               k.Model, url.QueryEscape model]
  let requestParams := url.Values.empty
  let requestParams := requestParams.Set k.Offset (strconv.Itoa offset)
  let requestParams := requestParams.Set k.Limit (strconv.Itoa limit)
  let (res, err) := GetRequest ctx res client.baseUrl requestPath (some requestParams)
  let calls := [{ verb := .GET, baseUrl := client.baseUrl, requestPath := requestPath,
                  requestParams := some requestParams }]
  match err with
  | some err =>
    { res := res, edgexError := some (errors.NewCommonEdgeXWrapper err), calls := calls }
  | none => { res := res, edgexError := none, calls := calls }

/-- `DeviceResourceByProfileNameAndResourceName` queries the device resource by
profileName and resourceName, through the resource cache. The first component is the client
state after the call. -/
def DeviceResourceByProfileNameAndResourceName [Inhabited Res] (k : v2.Constants)
    (GetRequest : utils.GetRequest Ctx Res) (client : DeviceProfileClient Res) (ctx : Ctx)
    (profileName resourceName : GoString) : DeviceProfileClient Res × Result Res :=
  let resourceMapKey := resourceMapKey profileName resourceName
  let (res, exists_) := client.resourceByMapKey resourceMapKey
  if exists_ then (client, { res := res, edgexError := none, calls := [] })
  else
    let requestPath :=
      path.Join [k.ApiDeviceResourceRoute, k.Profile, url.QueryEscape profileName,
                 k.Resource, url.QueryEscape resourceName]
    let (res, err) := GetRequest ctx res client.baseUrl requestPath none
    let calls := [{ verb := .GET, baseUrl := client.baseUrl, requestPath := requestPath,
                    requestParams := none }]
    match err with
    | some err =>
      (client, { res := res, edgexError := some (errors.NewCommonEdgeXWrapper err), calls := calls })
    | none =>
      (client.setResourceWithMapKey res resourceMapKey,
        { res := res, edgexError := none, calls := calls })

end DeviceProfileClient

/-! ## Package `common`: route constants of the transmission client -/

namespace common

/-- The route and field-name constants of package `common` that the transmission client
uses. Their values are not among the sources at hand and are taken as parameters. -/
structure Constants where
  ApiTransmissionRoute : GoString
  ApiAllTransmissionRoute : GoString
  Id : GoString
  Start : GoString
  End : GoString
  Status : GoString
  Age : GoString
  Subscription : GoString
  Name : GoString
  Notification : GoString
  Offset : GoString
  Limit : GoString

end common

/-! ## `clients/http/transmission.go` -/

/-- The state of a `TransmissionClient`. -/
structure TransmissionClient (Auth : Type) where
  baseUrl : GoString
  authInjector : Auth

namespace TransmissionClient

variable {Ctx Auth : Type}

/-- `NewTransmissionClient` creates an instance of `TransmissionClient`. -/
def NewTransmissionClient (baseUrl : GoString) (authInjector : Auth) : TransmissionClient Auth :=
  { baseUrl := baseUrl, authInjector := authInjector }

/-- `TransmissionById` queries a transmission by id. -/
def TransmissionById {Resp : Type} [Inhabited Resp]
    (k : common.Constants)
    (GetRequest : utils.GetRequestAuth Ctx Auth Resp)
    (client : TransmissionClient Auth) (ctx : Ctx) (id : GoString) : ResultAuth Auth Resp :=
  let res : Resp := default
  let requestPath := path.Join [k.ApiTransmissionRoute, k.Id, id]
  let (res, err) :=
    GetRequest ctx res client.baseUrl requestPath none client.authInjector
  let calls := [{ verb := .GET, baseUrl := client.baseUrl, requestPath := requestPath,
                  requestParams := none, authInjector := client.authInjector }]
  match err with
  | some err =>
    { res := res, edgexError := some (errors.NewCommonEdgeXWrapper err), calls := calls }
  | none => { res := res, edgexError := none, calls := calls }

/-- `TransmissionsByTimeRange` queries transmissions with time range, offset and limit. -/
def TransmissionsByTimeRange {Resp : Type} [Inhabited Resp]
    (k : common.Constants)
    (GetRequest : utils.GetRequestAuth Ctx Auth Resp)
    (client : TransmissionClient Auth) (ctx : Ctx)
    (start end_ offset limit : Int) : ResultAuth Auth Resp :=
  let res : Resp := default
  let requestPath := path.Join [k.ApiTransmissionRoute, k.Start, strconv.Itoa start, k.End, strconv.Itoa end_]
  let requestParams := url.Values.empty
  let requestParams := requestParams.Set k.Offset (strconv.Itoa offset)
  let requestParams := requestParams.Set k.Limit (strconv.Itoa limit)
  let (res, err) :=
    GetRequest ctx res client.baseUrl requestPath (some requestParams) client.authInjector
  let calls := [{ verb := .GET, baseUrl := client.baseUrl, requestPath := requestPath,
                  requestParams := some requestParams, authInjector := client.authInjector }]
  match err with
  | some err =>
    { res := res, edgexError := some (errors.NewCommonEdgeXWrapper err), calls := calls }
  | none => { res := res, edgexError := none, calls := calls }

/-- `AllTransmissions` queries transmissions with offset and limit. -/
def AllTransmissions {Resp : Type} [Inhabited Resp]
    (k : common.Constants)
    (GetRequest : utils.GetRequestAuth Ctx Auth Resp)
    (client : TransmissionClient Auth) (ctx : Ctx) (offset limit : Int) : ResultAuth Auth Resp :=
  let res : Resp := default
  let requestParams := url.Values.empty
  let requestParams := requestParams.Set k.Offset (strconv.Itoa offset)
  let requestParams := requestParams.Set k.Limit (strconv.Itoa limit)
  let (res, err) :=
    GetRequest ctx res client.baseUrl k.ApiAllTransmissionRoute (some requestParams) client.authInjector
  let calls := [{ verb := .GET, baseUrl := client.baseUrl, requestPath := k.ApiAllTransmissionRoute,
                  requestParams := some requestParams, authInjector := client.authInjector }]
  match err with
  | some err =>
    { res := res, edgexError := some (errors.NewCommonEdgeXWrapper err), calls := calls }
  | none => { res := res, edgexError := none, calls := calls }

/-- `TransmissionsByStatus` queries transmissions with status, offset and limit. -/
def TransmissionsByStatus {Resp : Type} [Inhabited Resp]
    (k : common.Constants)
    (GetRequest : utils.GetRequestAuth Ctx Auth Resp)
    (client : TransmissionClient Auth) (ctx : Ctx)
    (status : GoString) (offset limit : Int) : ResultAuth Auth Resp :=
  let res : Resp := default
  let requestPath := path.Join [k.ApiTransmissionRoute, k.Status, status]
  let requestParams := url.Values.empty
  let requestParams := requestParams.Set k.Offset (strconv.Itoa offset)
  let requestParams := requestParams.Set k.Limit (strconv.Itoa limit)
  let (res, err) :=
    GetRequest ctx res client.baseUrl requestPath (some requestParams) client.authInjector
  let calls := [{ verb := .GET, baseUrl := client.baseUrl, requestPath := requestPath,
                  requestParams := some requestParams, authInjector := client.authInjector }]
  match err with
  | some err =>
    { res := res, edgexError := some (errors.NewCommonEdgeXWrapper err), calls := calls }
  | none => { res := res, edgexError := none, calls := calls }

/-- `DeleteProcessedTransmissionsByAge` deletes the processed transmissions by age. -/
def DeleteProcessedTransmissionsByAge {Resp : Type} [Inhabited Resp]
    (k : common.Constants)
    (DeleteRequest : utils.DeleteRequestAuth Ctx Auth Resp)
    (client : TransmissionClient Auth) (ctx : Ctx) (age : Int) : ResultAuth Auth Resp :=
  let res : Resp := default
  let requestPath := path.Join [k.ApiTransmissionRoute, k.Age, strconv.Itoa age]
  let (res, err) := DeleteRequest ctx res client.baseUrl requestPath client.authInjector
  let calls := [{ verb := .DELETE, baseUrl := client.baseUrl, requestPath := requestPath,
                  requestParams := none, authInjector := client.authInjector }]
  match err with
  | some err =>
    { res := res, edgexError := some (errors.NewCommonEdgeXWrapper err), calls := calls }
  | none => { res := res, edgexError := none, calls := calls }

/-- `TransmissionsBySubscriptionName` queries transmissions with subscriptionName, offset
and limit. -/
def TransmissionsBySubscriptionName {Resp : Type} [Inhabited Resp]
    (k : common.Constants)
    (GetRequest : utils.GetRequestAuth Ctx Auth Resp)
    (client : TransmissionClient Auth) (ctx : Ctx)
    (subscriptionName : GoString) (offset limit : Int) : ResultAuth Auth Resp :=
  let res : Resp := default
  let requestPath := path.Join [k.ApiTransmissionRoute, k.Subscription, k.Name, subscriptionName]
  let requestParams := url.Values.empty
  let requestParams := requestParams.Set k.Offset (strconv.Itoa offset)
  let requestParams := requestParams.Set k.Limit (strconv.Itoa limit)
  let (res, err) :=
    GetRequest ctx res client.baseUrl requestPath (some requestParams) client.authInjector
  let calls := [{ verb := .GET, baseUrl := client.baseUrl, requestPath := requestPath,
                  requestParams := some requestParams, authInjector := client.authInjector }]
  match err with
  | some err =>
    { res := res, edgexError := some (errors.NewCommonEdgeXWrapper err), calls := calls }
  | none => { res := res, edgexError := none, calls := calls }

/-- `TransmissionsByNotificationId` queries transmissions with notification id, offset and
limit. -/
def TransmissionsByNotificationId {Resp : Type} [Inhabited Resp]
    (k : common.Constants)
    (GetRequest : utils.GetRequestAuth Ctx Auth Resp)
    (client : TransmissionClient Auth) (ctx : Ctx)
    (id : GoString) (offset limit : Int) : ResultAuth Auth Resp :=
  let res : Resp := default
  let requestPath := path.Join [k.ApiTransmissionRoute, k.Notification, k.Id, id]
  let requestParams := url.Values.empty
  let requestParams := requestParams.Set k.Offset (strconv.Itoa offset)
  let requestParams := requestParams.Set k.Limit (strconv.Itoa limit)
  let (res, err) :=
    GetRequest ctx res client.baseUrl requestPath (some requestParams) client.authInjector
  let calls := [{ verb := .GET, baseUrl := client.baseUrl, requestPath := requestPath,
                  requestParams := some requestParams, authInjector := client.authInjector }]
  match err with
  | some err =>
    { res := res, edgexError := some (errors.NewCommonEdgeXWrapper err), calls := calls }
  | none => { res := res, edgexError := none, calls := calls }

end TransmissionClient

/-! ## Package `responses`: the event response constructors -/

namespace responses

/-- Modelled from the spec: `common.BaseResponse` is not among the sources at hand; the
tests of `event_test.go` read its fields `RequestId`, `Message` and `StatusCode`. -/
structure BaseResponse where
  RequestId : GoString
  Message : GoString
  StatusCode : Int
deriving DecidableEq, Repr

/-- Modelled from the spec: `common.NewBaseResponse` (not among the sources at hand) stores
its three arguments. -/
def NewBaseResponse (requestId message : GoString) (statusCode : Int) : BaseResponse :=
  { RequestId := requestId, Message := message, StatusCode := statusCode }

/-- Modelled from the spec: `common.NewBaseResponseNoMessage` (not among the sources at
hand) stores its two arguments and leaves the message empty. -/
def NewBaseResponseNoMessage (requestId : GoString) (statusCode : Int) : BaseResponse :=
  { RequestId := requestId, Message := [], StatusCode := statusCode }

/-- Modelled from the spec: the response type `EventCountResponse` (not among the sources
at hand), with the fields the tests read. `Count` is a `uint32`. -/
structure EventCountResponse extends BaseResponse where
  Count : Nat
  DeviceName : GoString
deriving DecidableEq, Repr

/-- Modelled from the spec: the response type `EventResponse` (not among the sources at
hand), with the fields the tests read. -/
structure EventResponse (Event : Type) extends BaseResponse where
  Event : Event

/-- Modelled from the spec: the response type `MultiEventsResponse` (not among the sources
at hand), with the fields the tests read. -/
structure MultiEventsResponse (Event : Type) extends BaseResponse where
  Events : List Event

/-- Modelled from the spec: the response type `UpdateEventPushedByIdResponse` (not among
the sources at hand), with the fields the tests read. -/
structure UpdateEventPushedByIdResponse extends BaseResponse where
  Id : GoString
deriving DecidableEq, Repr

/-- Modelled from the spec: the constructor `NewEventCountResponse` is not among the
sources at hand (only its test `TestNewEventCountResponse` is); the response is built from
the arguments, in the order of the call in the test. -/
def NewEventCountResponse (requestId message : GoString) (statusCode : Int) (count : Nat)
    (deviceName : GoString) : EventCountResponse :=
  { toBaseResponse := NewBaseResponse requestId message statusCode,
    Count := count, DeviceName := deviceName }

/-- Modelled from the spec: the constructor `NewEventCountResponseNoMessage` is not among
the sources at hand (only its test is). -/
def NewEventCountResponseNoMessage (requestId : GoString) (statusCode : Int) (count : Nat)
    (deviceName : GoString) : EventCountResponse :=
  { toBaseResponse := NewBaseResponseNoMessage requestId statusCode,
    Count := count, DeviceName := deviceName }

/-- Modelled from the spec: the constructor `NewEventResponse` is not among the sources at
hand (only its test is). -/
def NewEventResponse {Event : Type} (requestId message : GoString) (statusCode : Int)
    (event : Event) : EventResponse Event :=
  { toBaseResponse := NewBaseResponse requestId message statusCode, Event := event }

/-- Modelled from the spec: the constructor `NewEventResponseNoMessage` is not among the
sources at hand (only its test is). -/
def NewEventResponseNoMessage {Event : Type} (requestId : GoString) (statusCode : Int)
    (event : Event) : EventResponse Event :=
  { toBaseResponse := NewBaseResponseNoMessage requestId statusCode, Event := event }

/-- Modelled from the spec: the constructor `NewMultiEventsResponse` is not among the
sources at hand (only its test is). -/
def NewMultiEventsResponse {Event : Type} (requestId message : GoString) (statusCode : Int)
    (events : List Event) : MultiEventsResponse Event :=
  { toBaseResponse := NewBaseResponse requestId message statusCode, Events := events }

/-- Modelled from the spec: the constructor `NewUpdateEventPushedByIdResponse` is not among
the sources at hand (only its test is). -/
def NewUpdateEventPushedByIdResponse (requestId message : GoString) (statusCode : Int)
    (id : GoString) : UpdateEventPushedByIdResponse :=
  { toBaseResponse := NewBaseResponse requestId message statusCode, Id := id }

/-- Modelled from the spec: the constructor `NewUpdateEventPushedByIdResponseNoMessage` is
not among the sources at hand (only its test is). -/
def NewUpdateEventPushedByIdResponseNoMessage (requestId : GoString) (statusCode : Int)
    (id : GoString) : UpdateEventPushedByIdResponse :=
  { toBaseResponse := NewBaseResponseNoMessage requestId statusCode, Id := id }

end responses

/-! ## Shapes of request paths -/

namespace path

/-- A real path element: non-empty, without a slash, and neither `.` nor `..`. -/
def IsElement (e : GoString) : Prop :=
  e ≠ [] ∧ bSlash ∉ e ∧ e ≠ sDot ∧ e ≠ sDotDot

instance : DecidablePred IsElement := fun e => by
  unfold IsElement; infer_instance

/-- A fixed route: a rooted path with at least one element that `Clean` leaves as it is
(such as `/api/v2/deviceprofile`). -/
def IsRoute (r : GoString) : Prop :=
  r.head? = some bSlash ∧ r ≠ [bSlash] ∧ Clean r = r

instance : DecidablePred IsRoute := fun r => by
  unfold IsRoute; infer_instance

/-- The elements joined behind a route, each with its leading slash. -/
def slashed : List GoString → GoString
  | [] => []
  | e :: es => bSlash :: e ++ slashed es

/-- What is expected of one element of a request path behind the route: a fixed element,
or an identifier that the element stands for in escaped form. -/
inductive Seg where
  | fixed (s : GoString)
  | ident (s : GoString)
deriving DecidableEq, Repr

/-- The elements `es` are, one for one, the fixed elements of the shape and, for every
identifier of the shape, exactly one element that `url.QueryUnescape` decodes to it. -/
def segsMatch : List Seg → List GoString → Bool
  | [], [] => true
  | .fixed s :: shape, e :: es => decide (e = s) && segsMatch shape es
  | .ident s :: shape, e :: es => decide (url.QueryUnescape e = some s) && segsMatch shape es
  | _, _ => false

/-- The request path `p` consists of the elements of `route` followed by elements that
match `shape`. -/
def HasShape (p route : GoString) (shape : List Seg) : Bool :=
  decide ((elements p).take (elements route).length = elements route) &&
    segsMatch shape ((elements p).drop (elements route).length)

/-- The method handed exactly one request to the transport, and the path of that request
consists of the elements of `route` followed by elements that match `shape`. -/
def HandsShape (handed : List GoString) (route : GoString) (shape : List Seg) : Bool :=
  match handed with
  | [p] => HasShape p route shape
  | _ => false

end path

/-- The request paths handed to the transport by a `v2` client method. -/
def Result.requestPaths {α : Type} (r : Result α) : List GoString :=
  r.calls.map (fun c => c.requestPath)

/-- The query parameters handed to the transport by a `v2` client method. -/
def Result.requestParams {α : Type} (r : Result α) : List (Option url.Values) :=
  r.calls.map (fun c => c.requestParams)

/-- The request paths handed to the transport by a method of the transmission client. -/
def ResultAuth.requestPaths {Auth α : Type} (r : ResultAuth Auth α) : List GoString :=
  r.calls.map (fun c => c.requestPath)

/-- The query parameters handed to the transport by a method of the transmission client. -/
def ResultAuth.requestParams {Auth α : Type} (r : ResultAuth Auth α) :
    List (Option url.Values) :=
  r.calls.map (fun c => c.requestParams)

/-- The identifiers whose escaped form is a real path element: all but the empty string,
`.` and `..`. -/
def IsIdentifier (s : GoString) : Prop :=
  s ≠ [] ∧ s ≠ sDot ∧ s ≠ sDotDot

instance : DecidablePred IsIdentifier := fun s => by
  unfold IsIdentifier; infer_instance

/-- The constants of package `v2` used in request paths are fixed routes and real path
elements. -/
def v2.Constants.WellFormed (k : v2.Constants) : Prop :=
  path.IsRoute k.ApiDeviceProfileRoute ∧ path.IsRoute k.ApiDeviceResourceRoute ∧
  path.IsElement k.Name ∧ path.IsElement k.Model ∧ path.IsElement k.Manufacturer ∧
  path.IsElement k.Profile ∧ path.IsElement k.Resource

instance : DecidablePred v2.Constants.WellFormed := fun k => by
  unfold v2.Constants.WellFormed; infer_instance

/-- The constants of package `common` used in request paths are fixed routes and real path
elements. -/
def common.Constants.WellFormed (k : common.Constants) : Prop :=
  path.IsRoute k.ApiTransmissionRoute ∧
  path.IsElement k.Id ∧ path.IsElement k.Start ∧ path.IsElement k.End ∧
  path.IsElement k.Status ∧ path.IsElement k.Age ∧ path.IsElement k.Subscription ∧
  path.IsElement k.Name ∧ path.IsElement k.Notification

instance : DecidablePred common.Constants.WellFormed := fun k => by
  unfold common.Constants.WellFormed; infer_instance

/-- The method handed exactly one request to the transport, and the query-parameter set of
that request contains exactly the two keys `offsetKey` and `limitKey`, each with the single
value that is the decimal rendering of `offset` and of `limit`, and no other key. -/
def IsPagination (offsetKey limitKey : GoString) (offset limit : Int)
    (handed : List (Option url.Values)) : Prop :=
  ∃ v, handed = [some v] ∧
    v offsetKey = some [strconv.Itoa offset] ∧
    v limitKey = some [strconv.Itoa limit] ∧
    ∀ key, key ≠ offsetKey → key ≠ limitKey → v key = none

/-! ## The history of a device-profile client -/

namespace DeviceProfileClient

variable {Ctx Res : Type}

/-- One operation on a device-profile client: a resource lookup (with the behaviour the
transport shows if it is asked), an invalidation, or any of the methods that do not touch
the cache (`Add`, `Update`, `AddByYaml`, `UpdateByYaml`, `DeleteByName`,
`DeviceProfileByName`, `AllDeviceProfiles`, `DeviceProfilesByModel`,
`DeviceProfilesByManufacturer`, `DeviceProfilesByManufacturerAndModel`: none of them
assigns to a field of the client). -/
inductive Op (Ctx Res : Type) where
  | deviceResource (GetRequest : utils.GetRequest Ctx Res) (ctx : Ctx)
      (profileName resourceName : GoString)
  | cleanResourcesCache
  | nonCache

/-- Whether the operation is `CleanResourcesCache`. -/
def Op.isClean : Op Ctx Res → Bool
  | .cleanResourcesCache => true
  | _ => false

/-- What the history of a client records: a successful transport fetch for a cache key,
with the value fetched, and an invalidation of the cache. -/
inductive Event (Res : Type) where
  | fetched (key : GoString) (v : Res)
  | cleaned

/-- One operation applied to a client and its history (most recent event first). A lookup
records a fetch when it handed a request to the transport and returned no error. -/
def step [Inhabited Res] (k : v2.Constants)
    (s : DeviceProfileClient Res × List (Event Res)) (op : Op Ctx Res) :
    DeviceProfileClient Res × List (Event Res) :=
  match op with
  | .deviceResource GetRequest ctx profileName resourceName =>
    let r := DeviceResourceByProfileNameAndResourceName k GetRequest s.1 ctx
      profileName resourceName
    if !r.2.calls.isEmpty && r.2.edgexError.isNone then
      (r.1, .fetched (resourceMapKey profileName resourceName) r.2.res :: s.2)
    else (r.1, s.2)
  | .cleanResourcesCache => (CleanResourcesCache s.1, .cleaned :: s.2)
  | .nonCache => s

/-- The client and its history after a sequence of operations on a new client. -/
def run [Inhabited Res] (k : v2.Constants) (baseUrl : GoString) (ops : List (Op Ctx Res)) :
    DeviceProfileClient Res × List (Event Res) :=
  ops.foldl (step k) (NewDeviceProfileClient baseUrl, [])

/-- The value of the most recent successful fetch for `key` in a history. -/
def lastFetch : List (Event Res) → GoString → Option Res
  | [], _ => none
  | .fetched k v :: h, key => if k = key then some v else lastFetch h key
  | .cleaned :: h, key => lastFetch h key

/-- The value of the most recent successful fetch for `key` that happened after the most
recent invalidation. -/
def lastFetchSinceClean : List (Event Res) → GoString → Option Res
  | [], _ => none
  | .fetched k v :: h, key => if k = key then some v else lastFetchSinceClean h key
  | .cleaned :: _, _ => none

end DeviceProfileClient

/-! ## Sample constants and transports -/

/-- Sample values for the constants of package `v2`. -/
def sampleV2 : v2.Constants :=
  { ApiDeviceProfileRoute := gs "/api/v2/deviceprofile"
    ApiDeviceProfileUploadFileRoute := gs "/api/v2/deviceprofile/uploadfile"
    ApiAllDeviceProfileRoute := gs "/api/v2/deviceprofile/all"
    ApiDeviceResourceRoute := gs "/api/v2/deviceresource"
    Name := gs "name"
    Model := gs "model"
    Manufacturer := gs "manufacturer"
    Profile := gs "profile"
    Resource := gs "resource"
    Labels := gs "labels"
    CommaSeparator := gs ","
    Offset := gs "offset"
    Limit := gs "limit" }

/-- Sample values for the constants of package `common`. -/
def sampleCommon : common.Constants :=
  { ApiTransmissionRoute := gs "/api/v3/transmission"
    ApiAllTransmissionRoute := gs "/api/v3/transmission/all"
    Id := gs "id"
    Start := gs "start"
    End := gs "end"
    Status := gs "status"
    Age := gs "age"
    Subscription := gs "subscription"
    Name := gs "name"
    Notification := gs "notification"
    Offset := gs "offset"
    Limit := gs "limit" }

/-- A transport that answers every GET with the value `v` and no error. -/
def getAnswer {α : Type} (v : α) : utils.GetRequest Unit α :=
  fun _ _ _ _ _ => (v, none)

/-- A transport that fails every GET with the error `e`, leaving the result variable as it
was. -/
def getFail {α : Type} (e : errors.EdgeX) : utils.GetRequest Unit α :=
  fun _ res _ _ _ => (res, some e)

/-- A transport that answers every DELETE with the value `v` and no error. -/
def deleteAnswer {α : Type} (v : α) : utils.DeleteRequest Unit α :=
  fun _ _ _ _ => (v, none)

/-- A transport with an authentication injector that answers every GET with the value `v`
and no error. -/
def getAnswerAuth {α : Type} (v : α) : utils.GetRequestAuth Unit Unit α :=
  fun _ _ _ _ _ _ => (v, none)

/-- A transport with an authentication injector that answers every DELETE with the value
`v` and no error. -/
def deleteAnswerAuth {α : Type} (v : α) : utils.DeleteRequestAuth Unit Unit α :=
  fun _ _ _ _ _ => (v, none)

/-- A sample "not found" error of the transport. -/
def sampleError : errors.EdgeX := .base (gs "NotFound") (gs "no such resource")

/-- A client whose cache holds the single entry `key ↦ v`. -/
def clientWith {Res : Type} (baseUrl key : GoString) (v : Res) : DeviceProfileClient Res :=
  (DeviceProfileClient.NewDeviceProfileClient baseUrl).setResourceWithMapKey v key

/-! ## Checks of the standard-library models against the tables of the Go test suites -/

example : ∀ t ∈ [
    (gs "", gs "."),
    (gs "abc", gs "abc"),
    (gs "abc/def", gs "abc/def"),
    (gs "a/b/c", gs "a/b/c"),
    (gs ".", gs "."),
    (gs "..", gs ".."),
    (gs "../..", gs "../.."),
    (gs "../../abc", gs "../../abc"),
    (gs "/abc", gs "/abc"),
    (gs "/", gs "/"),
    (gs "abc/", gs "abc"),
    (gs "abc/def/", gs "abc/def"),
    (gs "a/b/c/", gs "a/b/c"),
    (gs "./", gs "."),
    (gs "../", gs ".."),
    (gs "../../", gs "../.."),
    (gs "/abc/", gs "/abc"),
    (gs "abc//def//ghi", gs "abc/def/ghi"),
    (gs "//abc", gs "/abc"),
    (gs "///abc", gs "/abc"),
    (gs "//abc//", gs "/abc"),
    (gs "abc//", gs "abc"),
    (gs "abc/./def", gs "abc/def"),
    (gs "/./abc/def", gs "/abc/def"),
    (gs "abc/.", gs "abc"),
    (gs "abc/def/ghi/../jkl", gs "abc/def/jkl"),
    (gs "abc/def/../ghi/../jkl", gs "abc/jkl"),
    (gs "abc/def/..", gs "abc"),
    (gs "abc/def/../..", gs "."),
    (gs "/abc/def/../..", gs "/"),
    (gs "abc/def/../../..", gs ".."),
    (gs "/abc/def/../../..", gs "/"),
    (gs "abc/def/../../../ghi/jkl/../../../mno", gs "../../mno"),
    (gs "abc/./../def", gs "def"),
    (gs "abc//./../def", gs "def"),
    (gs "abc/../../././../def", gs "../../def")],
    path.Clean t.1 = t.2 := by decide

example : ∀ t ∈ [
    ([gs "a", gs "b"], gs "a/b"),
    ([gs "a", gs ""], gs "a"),
    ([gs "", gs "b"], gs "b"),
    ([gs "/", gs "a"], gs "/a"),
    ([gs "/", gs ""], gs "/"),
    ([gs "a/", gs "b"], gs "a/b"),
    ([gs "a/", gs ""], gs "a"),
    ([gs "", gs ""], gs ""),
    ([], gs ""),
    ([gs ""], gs ""),
    ([gs "a"], gs "a"),
    ([gs "a", gs "b", gs "c"], gs "a/b/c"),
    ([gs "a", gs "", gs "b"], gs "a/b")],
    path.Join t.1 = t.2 := by decide

example : url.QueryEscape (gs "one two") = gs "one+two" ∧
    url.QueryEscape (gs "10%") = gs "10%25" ∧
    url.QueryEscape (gs " ?&=#+%!<>:/@$*,;~-_.") = gs "+%3F%26%3D%23%2B%25%21%3C%3E%3A%2F%40%24%2A%2C%3B~-_." ∧
    url.QueryUnescape (gs "a+b%2Fc") = some (gs "a b/c") ∧
    url.QueryUnescape (gs "%zz") = none ∧ url.QueryUnescape (gs "abc%a") = none := by decide

example : strconv.Itoa 0 = gs "0" ∧ strconv.Itoa 7 = gs "7" ∧ strconv.Itoa 10 = gs "10" ∧
    strconv.Itoa (-120) = gs "-120" ∧ strconv.Itoa 9223372036854775807 = gs "9223372036854775807" ∧
    strconv.Itoa (-9223372036854775808) = gs "-9223372036854775808" := by decide

example : path.Join [gs "/api/v2/deviceprofile", gs "name", url.QueryEscape (gs "a b/c")]
    = gs "/api/v2/deviceprofile/name/a+b%2Fc" := by decide

example : sampleV2.WellFormed := by decide

example : sampleCommon.WellFormed := by decide

/-- The assertions of `TestNewEventCountResponse`. -/
example : (responses.NewEventCountResponse (gs "123456") (gs "unit test message") 200 1000
      (gs "device1")).RequestId = gs "123456" ∧
    (responses.NewEventCountResponse (gs "123456") (gs "unit test message") 200 1000
      (gs "device1")).StatusCode = 200 ∧
    (responses.NewEventCountResponse (gs "123456") (gs "unit test message") 200 1000
      (gs "device1")).Message = gs "unit test message" ∧
    (responses.NewEventCountResponse (gs "123456") (gs "unit test message") 200 1000
      (gs "device1")).Count = 1000 ∧
    (responses.NewEventCountResponse (gs "123456") (gs "unit test message") 200 1000
      (gs "device1")).DeviceName = gs "device1" := by decide

/-! ## The resource cache -/

namespace DeviceProfileClient

variable {Ctx Res : Type}

theorem resourceByMapKey_of_some [Inhabited Res] (client : DeviceProfileClient Res)
    (key : GoString) (v : Res) (h : client.resourcesCache key = some v) :
    client.resourceByMapKey key = (v, true) := by
  simp [resourceByMapKey, h]

theorem resourceByMapKey_of_none [Inhabited Res] (client : DeviceProfileClient Res)
    (key : GoString) (h : client.resourcesCache key = none) :
    client.resourceByMapKey key = (default, false) := by
  simp [resourceByMapKey, h]

/-- A lookup whose key is cached returns the cached value without a transport call and
leaves the client as it is. -/
theorem deviceResource_hit [Inhabited Res] (k : v2.Constants)
    (GetRequest : utils.GetRequest Ctx Res) (client : DeviceProfileClient Res) (ctx : Ctx)
    (profileName resourceName : GoString) (v : Res)
    (h : client.resourcesCache (resourceMapKey profileName resourceName) = some v) :
    DeviceResourceByProfileNameAndResourceName k GetRequest client ctx profileName resourceName
      = (client, { res := v, edgexError := none, calls := [] }) := by
  simp [DeviceResourceByProfileNameAndResourceName, resourceByMapKey_of_some _ _ _ h]

/-- A lookup whose key is not cached, written out: one GET for the resource path, with the
zero value in the result variable; on success the result is stored under the key. -/
theorem deviceResource_miss [Inhabited Res] (k : v2.Constants)
    (GetRequest : utils.GetRequest Ctx Res) (client : DeviceProfileClient Res) (ctx : Ctx)
    (profileName resourceName : GoString)
    (h : client.resourcesCache (resourceMapKey profileName resourceName) = none) :
    DeviceResourceByProfileNameAndResourceName k GetRequest client ctx profileName resourceName
      = (match (GetRequest ctx default client.baseUrl
            (path.Join [k.ApiDeviceResourceRoute, k.Profile, url.QueryEscape profileName,
              k.Resource, url.QueryEscape resourceName]) none).2 with
         | some _ => client
         | none => client.setResourceWithMapKey
            (GetRequest ctx default client.baseUrl
              (path.Join [k.ApiDeviceResourceRoute, k.Profile, url.QueryEscape profileName,
                k.Resource, url.QueryEscape resourceName]) none).1
            (resourceMapKey profileName resourceName),
         { res := (GetRequest ctx default client.baseUrl
              (path.Join [k.ApiDeviceResourceRoute, k.Profile, url.QueryEscape profileName,
                k.Resource, url.QueryEscape resourceName]) none).1,
           edgexError := (GetRequest ctx default client.baseUrl
              (path.Join [k.ApiDeviceResourceRoute, k.Profile, url.QueryEscape profileName,
                k.Resource, url.QueryEscape resourceName]) none).2.map
                  errors.NewCommonEdgeXWrapper,
           calls := [{ verb := .GET, baseUrl := client.baseUrl,
                       requestPath := path.Join [k.ApiDeviceResourceRoute, k.Profile,
                         url.QueryEscape profileName, k.Resource, url.QueryEscape resourceName],
                       requestParams := none }] }) := by
  simp only [DeviceResourceByProfileNameAndResourceName, resourceByMapKey_of_none _ _ h]
  cases hg : GetRequest ctx default client.baseUrl
      (path.Join [k.ApiDeviceResourceRoute, k.Profile, url.QueryEscape profileName,
        k.Resource, url.QueryEscape resourceName]) none with
  | mk res err => cases err <;> simp

/-- C1 (cache hit). For every client state, pair and transport behaviour: when a first
call to `DeviceResourceByProfileNameAndResourceName` returns with a nil error, a second
call with the same pair on the resulting client returns the identical value with a nil
error and hands no request to the transport, whatever the second transport `G2` would
answer. -/
theorem cache_hit_on_second_call [Inhabited Res] (k : v2.Constants)
    (G1 G2 : utils.GetRequest Ctx Res) (client : DeviceProfileClient Res) (ctx1 ctx2 : Ctx)
    (profileName resourceName : GoString)
    (h : (DeviceResourceByProfileNameAndResourceName k G1 client ctx1
            profileName resourceName).2.edgexError = none) :
    (DeviceResourceByProfileNameAndResourceName k G2
        (DeviceResourceByProfileNameAndResourceName k G1 client ctx1
          profileName resourceName).1 ctx2 profileName resourceName).2.res
      = (DeviceResourceByProfileNameAndResourceName k G1 client ctx1
          profileName resourceName).2.res ∧
    (DeviceResourceByProfileNameAndResourceName k G2
        (DeviceResourceByProfileNameAndResourceName k G1 client ctx1
          profileName resourceName).1 ctx2 profileName resourceName).2.edgexError = none ∧
    (DeviceResourceByProfileNameAndResourceName k G2
        (DeviceResourceByProfileNameAndResourceName k G1 client ctx1
          profileName resourceName).1 ctx2 profileName resourceName).2.calls = [] := by
  cases hc : client.resourcesCache (resourceMapKey profileName resourceName) with
  | some v =>
    rw [deviceResource_hit k G1 client ctx1 profileName resourceName v hc]
    simp only
    rw [deviceResource_hit k G2 client ctx2 profileName resourceName v hc]
    simp
  | none =>
    rw [deviceResource_miss k G1 client ctx1 profileName resourceName hc] at h ⊢
    generalize G1 ctx1 default client.baseUrl
      (path.Join [k.ApiDeviceResourceRoute, k.Profile, url.QueryEscape profileName,
        k.Resource, url.QueryEscape resourceName]) none = g at h ⊢
    obtain ⟨res, err⟩ := g
    cases err with
    | some e => simp at h
    | none =>
      simp only
      rw [deviceResource_hit k G2 _ ctx2 profileName resourceName res
        (by simp [setResourceWithMapKey])]
      simp

/-- Witness for C1: on a new client a first lookup that the transport answers with `7`
succeeds; the second lookup returns `7` although its transport would fail. -/
theorem cache_hit_on_second_call_witness :
    (DeviceResourceByProfileNameAndResourceName sampleV2 (getAnswer 7)
        (NewDeviceProfileClient (gs "http://localhost")) ()
        (gs "profile1") (gs "res1")).2.edgexError = none ∧
    (DeviceResourceByProfileNameAndResourceName sampleV2 (getFail sampleError)
        (DeviceResourceByProfileNameAndResourceName sampleV2 (getAnswer 7)
          (NewDeviceProfileClient (gs "http://localhost")) ()
          (gs "profile1") (gs "res1")).1 () (gs "profile1") (gs "res1")).2.res = 7 :=
  ⟨by decide,
   (cache_hit_on_second_call sampleV2 (getAnswer 7) (getFail sampleError)
      (NewDeviceProfileClient (gs "http://localhost")) () () (gs "profile1") (gs "res1")
      (by decide)).1.trans (by decide)⟩

/-- C2 (failure atomicity). For every client state and every pair whose key is not in the
cache: when the transport `GetRequest` fails with the error `e`, the lookup hands exactly
one request to the transport, returns a non-nil error that wraps `e` (its cause is `e` and
it has the classification of `e`), and the client after the call is the client before the
call, so the key is still absent. -/
theorem failure_leaves_cache_unmodified [Inhabited Res] (k : v2.Constants)
    (GetRequest : utils.GetRequest Ctx Res) (client : DeviceProfileClient Res) (ctx : Ctx)
    (profileName resourceName : GoString) (e : errors.EdgeX)
    (habsent : client.resourcesCache (resourceMapKey profileName resourceName) = none)
    (hfail : (GetRequest ctx default client.baseUrl
        (path.Join [k.ApiDeviceResourceRoute, k.Profile, url.QueryEscape profileName,
          k.Resource, url.QueryEscape resourceName]) none).2 = some e) :
    (∃ err, (DeviceResourceByProfileNameAndResourceName k GetRequest client ctx
        profileName resourceName).2.edgexError = some err ∧
      errors.Cause err = some e ∧ errors.Kind err = errors.Kind e) ∧
    (DeviceResourceByProfileNameAndResourceName k GetRequest client ctx
        profileName resourceName).2.calls.length = 1 ∧
    (DeviceResourceByProfileNameAndResourceName k GetRequest client ctx
        profileName resourceName).1 = client ∧
    (DeviceResourceByProfileNameAndResourceName k GetRequest client ctx
        profileName resourceName).1.resourcesCache
          (resourceMapKey profileName resourceName) = none := by
  rw [deviceResource_miss k GetRequest client ctx profileName resourceName habsent]
  refine ⟨⟨errors.NewCommonEdgeXWrapper e, ?_, rfl, rfl⟩, ?_, ?_, ?_⟩ <;>
    simp [hfail, habsent]

/-- Witness for C2: a failing transport on a new client. -/
theorem failure_leaves_cache_unmodified_witness :
    (DeviceResourceByProfileNameAndResourceName sampleV2 (getFail sampleError)
        (NewDeviceProfileClient (gs "http://localhost") : DeviceProfileClient Nat) ()
        (gs "profile1") (gs "res1")).2.edgexError
      = some (errors.NewCommonEdgeXWrapper sampleError) ∧
    (DeviceResourceByProfileNameAndResourceName sampleV2 (getFail sampleError)
        (NewDeviceProfileClient (gs "http://localhost") : DeviceProfileClient Nat) ()
        (gs "profile1") (gs "res1")).1.resourcesCache
          (resourceMapKey (gs "profile1") (gs "res1")) = none :=
  ⟨by decide,
   (failure_leaves_cache_unmodified sampleV2 (getFail sampleError)
      (NewDeviceProfileClient (gs "http://localhost") : DeviceProfileClient Nat) ()
      (gs "profile1") (gs "res1") sampleError rfl rfl).2.2.2⟩

/-- C3 (clear forces a miss). For every client state in which the key of the pair is
cached: after `CleanResourcesCache` every key is not found, and the next lookup of the pair
hands exactly one request to the transport (a GET for the resource path) and returns what
the transport puts into the zero-valued result variable, not the value cached before. -/
theorem clean_forces_miss [Inhabited Res] (k : v2.Constants)
    (GetRequest : utils.GetRequest Ctx Res) (client : DeviceProfileClient Res) (ctx : Ctx)
    (profileName resourceName : GoString) (old : Res)
    (_hcached : client.resourcesCache (resourceMapKey profileName resourceName) = some old) :
    (∀ key, (CleanResourcesCache client).resourceByMapKey key = (default, false)) ∧
    (∀ key, (CleanResourcesCache client).resourcesCache key = none) ∧
    (DeviceResourceByProfileNameAndResourceName k GetRequest (CleanResourcesCache client) ctx
        profileName resourceName).2.calls
      = [{ verb := .GET, baseUrl := client.baseUrl,
           requestPath := path.Join [k.ApiDeviceResourceRoute, k.Profile,
             url.QueryEscape profileName, k.Resource, url.QueryEscape resourceName],
           requestParams := none }] ∧
    (DeviceResourceByProfileNameAndResourceName k GetRequest (CleanResourcesCache client) ctx
        profileName resourceName).2.res
      = (GetRequest ctx default client.baseUrl
          (path.Join [k.ApiDeviceResourceRoute, k.Profile, url.QueryEscape profileName,
            k.Resource, url.QueryEscape resourceName]) none).1 ∧
    (DeviceResourceByProfileNameAndResourceName k GetRequest (CleanResourcesCache client) ctx
        profileName resourceName).2.edgexError
      = (GetRequest ctx default client.baseUrl
          (path.Join [k.ApiDeviceResourceRoute, k.Profile, url.QueryEscape profileName,
            k.Resource, url.QueryEscape resourceName]) none).2.map
              errors.NewCommonEdgeXWrapper := by
  have hnone : ∀ key, (CleanResourcesCache client).resourcesCache key = none := fun _ => rfl
  refine ⟨fun key => resourceByMapKey_of_none _ key (hnone key), hnone, ?_, ?_, ?_⟩ <;>
    rw [deviceResource_miss k GetRequest (CleanResourcesCache client) ctx profileName
      resourceName (hnone _)] <;> rfl

/-- Witness for C3: the cache holds `5` for the pair, the transport now answers `9`; after
the invalidation the lookup returns `9`. -/
theorem clean_forces_miss_witness :
    (clientWith (gs "http://localhost") (resourceMapKey (gs "profile1") (gs "res1"))
        5).resourcesCache (resourceMapKey (gs "profile1") (gs "res1")) = some 5 ∧
    (DeviceResourceByProfileNameAndResourceName sampleV2 (getAnswer 9)
        (CleanResourcesCache (clientWith (gs "http://localhost")
          (resourceMapKey (gs "profile1") (gs "res1")) 5)) ()
        (gs "profile1") (gs "res1")).2.res = 9 :=
  ⟨by decide,
   (clean_forces_miss sampleV2 (getAnswer 9)
      (clientWith (gs "http://localhost") (resourceMapKey (gs "profile1") (gs "res1")) 5) ()
      (gs "profile1") (gs "res1") 5 (by decide)).2.2.2.1.trans rfl⟩

/-- C9 (a miss stores exactly one entry). For every client state and every pair whose key
is absent from the cache: when the transport fetch succeeds with the value `v`, the lookup
hands exactly one request to the transport, returns `v` with a nil error, and the resulting
cache is the previous cache with the key mapped to `v`; every other key keeps its previous
presence and value, and `baseUrl` is unchanged. -/
theorem miss_stores_one_entry [Inhabited Res] (k : v2.Constants)
    (GetRequest : utils.GetRequest Ctx Res) (client : DeviceProfileClient Res) (ctx : Ctx)
    (profileName resourceName : GoString) (v : Res)
    (habsent : client.resourcesCache (resourceMapKey profileName resourceName) = none)
    (hok : GetRequest ctx default client.baseUrl
        (path.Join [k.ApiDeviceResourceRoute, k.Profile, url.QueryEscape profileName,
          k.Resource, url.QueryEscape resourceName]) none = (v, none)) :
    (DeviceResourceByProfileNameAndResourceName k GetRequest client ctx
        profileName resourceName).2.calls.length = 1 ∧
    (DeviceResourceByProfileNameAndResourceName k GetRequest client ctx
        profileName resourceName).2.res = v ∧
    (DeviceResourceByProfileNameAndResourceName k GetRequest client ctx
        profileName resourceName).2.edgexError = none ∧
    (DeviceResourceByProfileNameAndResourceName k GetRequest client ctx
        profileName resourceName).1.resourcesCache
          (resourceMapKey profileName resourceName) = some v ∧
    (∀ key, key ≠ resourceMapKey profileName resourceName →
      (DeviceResourceByProfileNameAndResourceName k GetRequest client ctx
        profileName resourceName).1.resourcesCache key = client.resourcesCache key) ∧
    (DeviceResourceByProfileNameAndResourceName k GetRequest client ctx
        profileName resourceName).1.baseUrl = client.baseUrl := by
  rw [deviceResource_miss k GetRequest client ctx profileName resourceName habsent]
  refine ⟨?_, ?_, ?_, ?_, ?_, ?_⟩
  · simp
  · simp [hok]
  · simp [hok]
  · simp [hok, setResourceWithMapKey]
  · intro key hkey
    simp [hok, setResourceWithMapKey, hkey]
  · simp [hok, setResourceWithMapKey]

/-- Witness for C9: a successful fetch of `7` on a new client. -/
theorem miss_stores_one_entry_witness :
    (NewDeviceProfileClient (gs "http://localhost") : DeviceProfileClient Nat).resourcesCache
        (resourceMapKey (gs "profile1") (gs "res1")) = none ∧
    (DeviceResourceByProfileNameAndResourceName sampleV2 (getAnswer 7)
        (NewDeviceProfileClient (gs "http://localhost")) () (gs "profile1")
        (gs "res1")).1.resourcesCache (resourceMapKey (gs "profile1") (gs "res1")) = some 7 :=
  ⟨rfl,
   (miss_stores_one_entry sampleV2 (getAnswer 7)
      (NewDeviceProfileClient (gs "http://localhost")) () (gs "profile1") (gs "res1") 7
      rfl rfl).2.2.2.1⟩

/-- Two keys with the same text split at the same place when the profile names contain no
separator. -/
theorem resourceMapKey_inj_left (p1 r1 p2 r2 : GoString)
    (h1 : bColon ∉ p1) (h2 : bColon ∉ p2)
    (h : resourceMapKey p1 r1 = resourceMapKey p2 r2) : p1 = p2 ∧ r1 = r2 := by
  unfold resourceMapKey at h
  induction p1 generalizing p2 with
  | nil =>
    cases p2 with
    | nil => simpa using h
    | cons b p2 =>
      simp only [List.nil_append, List.cons_append, List.cons.injEq] at h
      exact absurd h.1 (fun hb => h2 (by simp [← hb]))
  | cons a p1 ih =>
    cases p2 with
    | nil =>
      simp only [List.nil_append, List.cons_append, List.cons.injEq] at h
      exact absurd h.1 (fun hb => h1 (by simp [hb]))
    | cons b p2 =>
      simp only [List.cons_append, List.cons.injEq] at h
      have := ih p2 (fun hm => h1 (List.mem_cons_of_mem _ hm))
        (fun hm => h2 (List.mem_cons_of_mem _ hm)) h.2
      exact ⟨by rw [h.1, this.1], this.2⟩

/-- Two keys with the same text split at the same place when the resource names contain no
separator. -/
theorem resourceMapKey_inj_right (p1 r1 p2 r2 : GoString)
    (h1 : bColon ∉ r1) (h2 : bColon ∉ r2)
    (h : resourceMapKey p1 r1 = resourceMapKey p2 r2) : p1 = p2 ∧ r1 = r2 := by
  have hrev : resourceMapKey r1.reverse p1.reverse = resourceMapKey r2.reverse p2.reverse := by
    have := congrArg List.reverse h
    simpa [resourceMapKey] using this
  have := resourceMapKey_inj_left r1.reverse p1.reverse r2.reverse p2.reverse
    (by simpa using h1) (by simpa using h2) hrev
  exact ⟨List.reverse_injective this.2, List.reverse_injective this.1⟩

/-- C10, as stated, fails: the distinct pairs (`a:b`, `c`) and (`a`, `b:c`) have the same
cache key `a:b:c`, and a lookup of the second pair on a client whose cache holds only the
entry `5` fetched for the first pair returns `5` without asking the transport (which would
have answered `9`). -/
theorem cache_keys_collide :
    (gs "a:b", gs "c") ≠ (gs "a", gs "b:c") ∧
    resourceMapKey (gs "a:b") (gs "c") = resourceMapKey (gs "a") (gs "b:c") ∧
    (DeviceResourceByProfileNameAndResourceName sampleV2 (getAnswer 9)
        (clientWith (gs "http://localhost") (resourceMapKey (gs "a:b") (gs "c")) 5) ()
        (gs "a") (gs "b:c")).2.calls.length = 0 ∧
    (DeviceResourceByProfileNameAndResourceName sampleV2 (getAnswer 9)
        (clientWith (gs "http://localhost") (resourceMapKey (gs "a:b") (gs "c")) 5) ()
        (gs "a") (gs "b:c")).2.res = 5 := by
  decide

/-- C10, amended. For all strings `p1 r1 p2 r2` such that neither profile name contains the
separator `:`, or neither resource name does: when the pairs differ, their cache keys
differ, and a lookup of (`p2`, `r2`) on a client whose cache holds only an entry fetched
for (`p1`, `r1`) hands exactly one request to the transport and returns the answer of the
transport, not the value `v1` cached for (`p1`, `r1`). -/
theorem cache_keys_identify_pairs [Inhabited Res] (k : v2.Constants)
    (GetRequest : utils.GetRequest Ctx Res) (baseUrl : GoString) (ctx : Ctx)
    (p1 r1 p2 r2 : GoString) (v1 : Res)
    (hsep : (bColon ∉ p1 ∧ bColon ∉ p2) ∨ (bColon ∉ r1 ∧ bColon ∉ r2))
    (hne : (p1, r1) ≠ (p2, r2)) :
    resourceMapKey p1 r1 ≠ resourceMapKey p2 r2 ∧
    (DeviceResourceByProfileNameAndResourceName k GetRequest
        (clientWith baseUrl (resourceMapKey p1 r1) v1) ctx p2 r2).2.calls.length = 1 ∧
    (DeviceResourceByProfileNameAndResourceName k GetRequest
        (clientWith baseUrl (resourceMapKey p1 r1) v1) ctx p2 r2).2.res
      = (GetRequest ctx default baseUrl
          (path.Join [k.ApiDeviceResourceRoute, k.Profile, url.QueryEscape p2,
            k.Resource, url.QueryEscape r2]) none).1 := by
  have hkey : resourceMapKey p1 r1 ≠ resourceMapKey p2 r2 := by
    intro h
    have : p1 = p2 ∧ r1 = r2 := by
      rcases hsep with ⟨h1, h2⟩ | ⟨h1, h2⟩
      · exact resourceMapKey_inj_left p1 r1 p2 r2 h1 h2 h
      · exact resourceMapKey_inj_right p1 r1 p2 r2 h1 h2 h
    exact hne (by rw [this.1, this.2])
  have habsent : (clientWith baseUrl (resourceMapKey p1 r1) v1).resourcesCache
      (resourceMapKey p2 r2) = none := by
    simp [clientWith, setResourceWithMapKey, NewDeviceProfileClient, Ne.symm hkey]
  refine ⟨hkey, ?_, ?_⟩ <;>
    rw [deviceResource_miss k GetRequest _ ctx p2 r2 habsent] <;> rfl

/-- Witness for the amended C10: the pairs (`a`, `b`) and (`a`, `c`). -/
theorem cache_keys_identify_pairs_witness :
    (gs "a", gs "b") ≠ (gs "a", gs "c") ∧
    (DeviceResourceByProfileNameAndResourceName sampleV2 (getAnswer 9)
        (clientWith (gs "http://localhost") (resourceMapKey (gs "a") (gs "b")) 5) ()
        (gs "a") (gs "c")).2.res = 9 :=
  ⟨by decide,
   (cache_keys_identify_pairs sampleV2 (getAnswer 9) (gs "http://localhost") ()
      (gs "a") (gs "b") (gs "a") (gs "c") 5 (Or.inl ⟨by decide, by decide⟩)
      (by decide)).2.2.trans rfl⟩

/-- A fetch after the most recent invalidation is the most recent fetch. -/
theorem lastFetch_of_lastFetchSinceClean (h : List (Event Res)) (key : GoString) (v : Res)
    (hv : lastFetchSinceClean h key = some v) : lastFetch h key = some v := by
  induction h with
  | nil => simp [lastFetchSinceClean] at hv
  | cons e h ih =>
    cases e with
    | fetched k0 v0 =>
      simp only [lastFetchSinceClean, lastFetch] at hv ⊢
      split
      · next hk => simpa [hk] using hv
      · next hk => exact ih (by simpa [hk] using hv)
    | cleaned => simp [lastFetchSinceClean] at hv

/-- Every operation keeps the cache equal to the fetches recorded since the last
invalidation. -/
theorem step_keeps_cache_eq_history [Inhabited Res] (k : v2.Constants)
    (s : DeviceProfileClient Res × List (Event Res)) (op : Op Ctx Res)
    (hs : ∀ key, s.1.resourcesCache key = lastFetchSinceClean s.2 key) :
    ∀ key, (step k s op).1.resourcesCache key = lastFetchSinceClean (step k s op).2 key := by
  intro key
  cases op with
  | deviceResource GetRequest ctx profileName resourceName =>
    cases hc : s.1.resourcesCache (resourceMapKey profileName resourceName) with
    | some v =>
      simp [step, deviceResource_hit k GetRequest s.1 ctx profileName resourceName v hc, hs]
    | none =>
      simp only [step, deviceResource_miss k GetRequest s.1 ctx profileName resourceName hc]
      generalize GetRequest ctx default s.1.baseUrl
        (path.Join [k.ApiDeviceResourceRoute, k.Profile, url.QueryEscape profileName,
          k.Resource, url.QueryEscape resourceName]) none = g
      obtain ⟨res, err⟩ := g
      cases err with
      | some e => simp [hs]
      | none =>
        by_cases hk : key = resourceMapKey profileName resourceName
        · simp [setResourceWithMapKey, lastFetchSinceClean, hk]
        · simp [setResourceWithMapKey, lastFetchSinceClean, hk, Ne.symm hk, hs]
  | cleanResourcesCache => simp [step, CleanResourcesCache, lastFetchSinceClean]
  | nonCache => simpa [step] using hs key

/-- An operation other than `CleanResourcesCache` keeps every existing cache entry. -/
theorem step_keeps_entries [Inhabited Res] (k : v2.Constants)
    (s : DeviceProfileClient Res × List (Event Res)) (op : Op Ctx Res)
    (hop : op.isClean = false) (key : GoString) (v : Res)
    (hv : s.1.resourcesCache key = some v) :
    (step k s op).1.resourcesCache key = some v := by
  cases op with
  | deviceResource GetRequest ctx profileName resourceName =>
    cases hc : s.1.resourcesCache (resourceMapKey profileName resourceName) with
    | some v0 =>
      simp [step, deviceResource_hit k GetRequest s.1 ctx profileName resourceName v0 hc, hv]
    | none =>
      have hk : key ≠ resourceMapKey profileName resourceName := by
        intro hk; rw [hk, hc] at hv; cases hv
      simp only [step, deviceResource_miss k GetRequest s.1 ctx profileName resourceName hc]
      generalize GetRequest ctx default s.1.baseUrl
        (path.Join [k.ApiDeviceResourceRoute, k.Profile, url.QueryEscape profileName,
          k.Resource, url.QueryEscape resourceName]) none = g
      obtain ⟨res, err⟩ := g
      cases err with
      | some e => simp [hv]
      | none => simp [setResourceWithMapKey, hk, hv]
  | cleanResourcesCache => simp [Op.isClean] at hop
  | nonCache => simpa [step] using hv

/-- In every reachable state the cache is the record of the fetches since the last
invalidation. -/
theorem run_cache_eq_history [Inhabited Res] (k : v2.Constants) (baseUrl : GoString)
    (ops : List (Op Ctx Res)) :
    ∀ key, (run k baseUrl ops).1.resourcesCache key
      = lastFetchSinceClean (run k baseUrl ops).2 key := by
  induction ops using List.reverseRecOn with
  | nil => intro key; simp [run, NewDeviceProfileClient, lastFetchSinceClean]
  | append_singleton ops op ih =>
    have : run k baseUrl (ops ++ [op]) = step k (run k baseUrl ops) op := by
      simp [run, List.foldl_append]
    rw [this]
    exact step_keeps_cache_eq_history k _ op ih

/-- C4 (cache invariant). In every state reached from `NewDeviceProfileClient` by a finite
sequence of operations (lookups with arbitrary transport behaviour, invalidations, and the
methods that do not touch the cache): every key present in the cache maps to the value of
the most recent successful transport fetch for that key, that fetch happened after the
most recent `CleanResourcesCache`, and an operation other than `CleanResourcesCache` keeps
every existing entry with its value. -/
theorem cache_invariant [Inhabited Res] (k : v2.Constants) (baseUrl : GoString)
    (ops : List (Op Ctx Res)) :
    (∀ key v, (run k baseUrl ops).1.resourcesCache key = some v →
      lastFetch (run k baseUrl ops).2 key = some v ∧
      lastFetchSinceClean (run k baseUrl ops).2 key = some v) ∧
    (∀ op : Op Ctx Res, op.isClean = false → ∀ key v,
      (run k baseUrl ops).1.resourcesCache key = some v →
      (step k (run k baseUrl ops) op).1.resourcesCache key = some v) := by
  refine ⟨fun key v hv => ?_, fun op hop key v hv => step_keeps_entries k _ op hop key v hv⟩
  have h := run_cache_eq_history k baseUrl ops key
  rw [hv] at h
  exact ⟨lastFetch_of_lastFetchSinceClean _ key v h.symm, h.symm⟩

/-- Witness for C4: a fetch of `7`, an invalidation, a failed fetch, a fetch of `8` and a
cache hit (whose transport would have answered `9`): the cache holds `8`, the most recent
successful fetch. -/
theorem cache_invariant_witness :
    (run sampleV2 (gs "http://localhost")
      [Op.deviceResource (getAnswer 7) () (gs "profile1") (gs "res1"),
       Op.cleanResourcesCache,
       Op.deviceResource (getFail sampleError) () (gs "profile1") (gs "res1"),
       Op.deviceResource (getAnswer 8) () (gs "profile1") (gs "res1"),
       Op.nonCache,
       Op.deviceResource (getAnswer 9) () (gs "profile1") (gs "res1")]).1.resourcesCache
        (resourceMapKey (gs "profile1") (gs "res1")) = some 8 ∧
    lastFetch (run sampleV2 (gs "http://localhost")
      [Op.deviceResource (getAnswer 7) () (gs "profile1") (gs "res1"),
       Op.cleanResourcesCache,
       Op.deviceResource (getFail sampleError) () (gs "profile1") (gs "res1"),
       Op.deviceResource (getAnswer 8) () (gs "profile1") (gs "res1"),
       Op.nonCache,
       Op.deviceResource (getAnswer 9) () (gs "profile1") (gs "res1")]).2
        (resourceMapKey (gs "profile1") (gs "res1")) = some 8 :=
  ⟨by decide,
   ((cache_invariant sampleV2 (gs "http://localhost")
      [Op.deviceResource (getAnswer 7) () (gs "profile1") (gs "res1"),
       Op.cleanResourcesCache,
       Op.deviceResource (getFail sampleError) () (gs "profile1") (gs "res1"),
       Op.deviceResource (getAnswer 8) () (gs "profile1") (gs "res1"),
       Op.nonCache,
       Op.deviceResource (getAnswer 9) () (gs "profile1") (gs "res1")]).1
      (resourceMapKey (gs "profile1") (gs "res1")) 8 (by decide)).1⟩

end DeviceProfileClient

/-! ## Pagination parameters -/

section Pagination

variable {Ctx Auth Res Resp : Type}

/-- The parameter set built by `Set(Offset, ..)` followed by `Set(Limit, ..)` on an empty
`url.Values`. -/
theorem values_set_offset_limit (offsetKey limitKey : GoString) (offset limit : Int)
    (h : offsetKey ≠ limitKey) :
    ((url.Values.empty.Set offsetKey (strconv.Itoa offset)).Set limitKey
        (strconv.Itoa limit)) offsetKey = some [strconv.Itoa offset] ∧
    ((url.Values.empty.Set offsetKey (strconv.Itoa offset)).Set limitKey
        (strconv.Itoa limit)) limitKey = some [strconv.Itoa limit] ∧
    ∀ key, key ≠ offsetKey → key ≠ limitKey →
      ((url.Values.empty.Set offsetKey (strconv.Itoa offset)).Set limitKey
        (strconv.Itoa limit)) key = none := by
  refine ⟨by simp [url.Values.Set, h], by simp [url.Values.Set], ?_⟩
  intro key h1 h2
  simp [url.Values.Set, url.Values.empty, h1, h2]

/-- A `v2` method that hands the single request `c` with the offset and limit parameters
set on an empty `url.Values` to the transport, whatever the transport answers. -/
theorem isPagination_of (offsetKey limitKey : GoString) (offset limit : Int)
    (g : Resp × Option errors.EdgeX) (c : Call) (r : Result Resp) (h : offsetKey ≠ limitKey)
    (hc : c.requestParams = some ((url.Values.empty.Set offsetKey (strconv.Itoa offset)).Set
      limitKey (strconv.Itoa limit)))
    (hr : r = (match g with
      | (res, err) =>
        match err with
        | some err =>
          { res := res, edgexError := some (errors.NewCommonEdgeXWrapper err), calls := [c] }
        | none => { res := res, edgexError := none, calls := [c] })) :
    IsPagination offsetKey limitKey offset limit r.requestParams := by
  obtain ⟨res, err⟩ := g
  refine ⟨_, ?_, values_set_offset_limit offsetKey limitKey offset limit h⟩
  cases err <;> simp [hr, Result.requestParams, hc]

/-- A method of the transmission client that hands the single request `c` with the offset
and limit parameters set on an empty `url.Values` to the transport. -/
theorem isPagination_auth_of (offsetKey limitKey : GoString) (offset limit : Int)
    (g : Resp × Option errors.EdgeX) (c : CallAuth Auth) (r : ResultAuth Auth Resp)
    (h : offsetKey ≠ limitKey)
    (hc : c.requestParams = some ((url.Values.empty.Set offsetKey (strconv.Itoa offset)).Set
      limitKey (strconv.Itoa limit)))
    (hr : r = (match g with
      | (res, err) =>
        match err with
        | some err =>
          { res := res, edgexError := some (errors.NewCommonEdgeXWrapper err), calls := [c] }
        | none => { res := res, edgexError := none, calls := [c] })) :
    IsPagination offsetKey limitKey offset limit r.requestParams := by
  obtain ⟨res, err⟩ := g
  refine ⟨_, ?_, values_set_offset_limit offsetKey limitKey offset limit h⟩
  cases err <;> simp [hr, ResultAuth.requestParams, hc]

/-- C5 (pagination parameters). For all integers `offset` and `limit` (and whatever the
other arguments and the transport are), the query-parameter set that `AllTransmissions`,
`TransmissionsByTimeRange`, `TransmissionsByStatus`, `TransmissionsBySubscriptionName`,
`TransmissionsByNotificationId`, `DeviceProfilesByModel`, `DeviceProfilesByManufacturer`,
`DeviceProfilesByManufacturerAndModel`, and `AllDeviceProfiles` with an empty labels list,
hand to the transport contains exactly the offset key and the limit key, each with the
single value `strconv.Itoa offset` and `strconv.Itoa limit`, and no other parameter. The
offset key and the limit key are distinct constants. -/
theorem pagination_parameters [Inhabited Resp] (k2 : v2.Constants) (k3 : common.Constants)
    (h2 : k2.Offset ≠ k2.Limit) (h3 : k3.Offset ≠ k3.Limit)
    (G2 : utils.GetRequest Ctx Resp) (G3 : utils.GetRequestAuth Ctx Auth Resp)
    (dc : DeviceProfileClient Res) (tc : TransmissionClient Auth) (ctx : Ctx)
    (offset limit start end_ : Int)
    (status subscriptionName id model manufacturer : GoString) :
    IsPagination k3.Offset k3.Limit offset limit
      (TransmissionClient.AllTransmissions k3 G3 tc ctx offset limit).requestParams ∧
    IsPagination k3.Offset k3.Limit offset limit
      (TransmissionClient.TransmissionsByTimeRange k3 G3 tc ctx start end_ offset limit).requestParams ∧
    IsPagination k3.Offset k3.Limit offset limit
      (TransmissionClient.TransmissionsByStatus k3 G3 tc ctx status offset limit).requestParams ∧
    IsPagination k3.Offset k3.Limit offset limit
      (TransmissionClient.TransmissionsBySubscriptionName k3 G3 tc ctx subscriptionName offset limit).requestParams ∧
    IsPagination k3.Offset k3.Limit offset limit
      (TransmissionClient.TransmissionsByNotificationId k3 G3 tc ctx id offset limit).requestParams ∧
    IsPagination k2.Offset k2.Limit offset limit
      (DeviceProfileClient.DeviceProfilesByModel k2 G2 dc ctx model offset limit).requestParams ∧
    IsPagination k2.Offset k2.Limit offset limit
      (DeviceProfileClient.DeviceProfilesByManufacturer k2 G2 dc ctx manufacturer offset limit).requestParams ∧
    IsPagination k2.Offset k2.Limit offset limit
      (DeviceProfileClient.DeviceProfilesByManufacturerAndModel k2 G2 dc ctx manufacturer model offset limit).requestParams ∧
    IsPagination k2.Offset k2.Limit offset limit
      (DeviceProfileClient.AllDeviceProfiles k2 G2 dc ctx [] offset limit).requestParams := by
  refine ⟨?_, ?_, ?_, ?_, ?_, ?_, ?_, ?_, ?_⟩
  · unfold TransmissionClient.AllTransmissions
    exact isPagination_auth_of _ _ _ _ _ _ _ h3 rfl rfl
  · unfold TransmissionClient.TransmissionsByTimeRange
    exact isPagination_auth_of _ _ _ _ _ _ _ h3 rfl rfl
  · unfold TransmissionClient.TransmissionsByStatus
    exact isPagination_auth_of _ _ _ _ _ _ _ h3 rfl rfl
  · unfold TransmissionClient.TransmissionsBySubscriptionName
    exact isPagination_auth_of _ _ _ _ _ _ _ h3 rfl rfl
  · unfold TransmissionClient.TransmissionsByNotificationId
    exact isPagination_auth_of _ _ _ _ _ _ _ h3 rfl rfl
  · unfold DeviceProfileClient.DeviceProfilesByModel
    exact isPagination_of _ _ _ _ _ _ _ h2 rfl rfl
  · unfold DeviceProfileClient.DeviceProfilesByManufacturer
    exact isPagination_of _ _ _ _ _ _ _ h2 rfl rfl
  · unfold DeviceProfileClient.DeviceProfilesByManufacturerAndModel
    exact isPagination_of _ _ _ _ _ _ _ h2 rfl rfl
  · unfold DeviceProfileClient.AllDeviceProfiles
    exact isPagination_of _ _ _ _ _ _ _ h2 rfl rfl

/-- Witness for C5: the sample constants, offset `-3` and limit `20`. -/
theorem pagination_parameters_witness :
    sampleV2.Offset ≠ sampleV2.Limit ∧ sampleCommon.Offset ≠ sampleCommon.Limit ∧
    IsPagination (gs "offset") (gs "limit") (-3) 20
      (TransmissionClient.AllTransmissions sampleCommon (getAnswerAuth (0 : Nat))
        (TransmissionClient.NewTransmissionClient (gs "http://localhost") ()) ()
        (-3) 20).requestParams :=
  ⟨by decide, by decide,
   (pagination_parameters sampleV2 sampleCommon (by decide) (by decide)
      (getAnswer (0 : Nat)) (getAnswerAuth (0 : Nat))
      (DeviceProfileClient.NewDeviceProfileClient (gs "http://localhost") :
        DeviceProfileClient Nat)
      (TransmissionClient.NewTransmissionClient (gs "http://localhost") ()) ()
      (-3) 20 0 0 [] [] [] [] []).1⟩

end Pagination

/-! ## The event response constructors -/

namespace responses

/-- C8 (response constructors preserve their arguments). For every `requestId`, `message`,
`statusCode` and payload, `NewEventCountResponse`, `NewEventResponse`,
`NewMultiEventsResponse` and `NewUpdateEventPushedByIdResponse` return a response whose
`RequestId`, `Message`, `StatusCode` and payload fields (`Count` and `DeviceName`; `Event`;
`Events`, in the same order; `Id`) are the arguments, and the `NoMessage` variants do the
same for `RequestId`, `StatusCode` and the payload fields. -/
theorem constructors_preserve_arguments {Event : Type} (requestId message : GoString)
    (statusCode : Int) (count : Nat) (deviceName : GoString) (event : Event)
    (events : List Event) (id : GoString) :
    ((NewEventCountResponse requestId message statusCode count deviceName).RequestId = requestId ∧
     (NewEventCountResponse requestId message statusCode count deviceName).Message = message ∧
     (NewEventCountResponse requestId message statusCode count deviceName).StatusCode
        = statusCode ∧
     (NewEventCountResponse requestId message statusCode count deviceName).Count = count ∧
     (NewEventCountResponse requestId message statusCode count deviceName).DeviceName
        = deviceName) ∧
    ((NewEventCountResponseNoMessage requestId statusCode count deviceName).RequestId
        = requestId ∧
     (NewEventCountResponseNoMessage requestId statusCode count deviceName).StatusCode
        = statusCode ∧
     (NewEventCountResponseNoMessage requestId statusCode count deviceName).Count = count ∧
     (NewEventCountResponseNoMessage requestId statusCode count deviceName).DeviceName
        = deviceName) ∧
    ((NewEventResponse requestId message statusCode event).RequestId = requestId ∧
     (NewEventResponse requestId message statusCode event).Message = message ∧
     (NewEventResponse requestId message statusCode event).StatusCode = statusCode ∧
     (NewEventResponse requestId message statusCode event).Event = event) ∧
    ((NewEventResponseNoMessage requestId statusCode event).RequestId = requestId ∧
     (NewEventResponseNoMessage requestId statusCode event).StatusCode = statusCode ∧
     (NewEventResponseNoMessage requestId statusCode event).Event = event) ∧
    ((NewMultiEventsResponse requestId message statusCode events).RequestId = requestId ∧
     (NewMultiEventsResponse requestId message statusCode events).Message = message ∧
     (NewMultiEventsResponse requestId message statusCode events).StatusCode = statusCode ∧
     (NewMultiEventsResponse requestId message statusCode events).Events = events) ∧
    ((NewUpdateEventPushedByIdResponse requestId message statusCode id).RequestId
        = requestId ∧
     (NewUpdateEventPushedByIdResponse requestId message statusCode id).Message = message ∧
     (NewUpdateEventPushedByIdResponse requestId message statusCode id).StatusCode
        = statusCode ∧
     (NewUpdateEventPushedByIdResponse requestId message statusCode id).Id = id) ∧
    ((NewUpdateEventPushedByIdResponseNoMessage requestId statusCode id).RequestId
        = requestId ∧
     (NewUpdateEventPushedByIdResponseNoMessage requestId statusCode id).StatusCode
        = statusCode ∧
     (NewUpdateEventPushedByIdResponseNoMessage requestId statusCode id).Id = id) := by
  refine ⟨⟨rfl, rfl, rfl, rfl, rfl⟩, ⟨rfl, rfl, rfl, rfl⟩, ⟨rfl, rfl, rfl, rfl⟩,
    ⟨rfl, rfl, rfl⟩, ⟨rfl, rfl, rfl, rfl⟩, ⟨rfl, rfl, rfl, rfl⟩, ⟨rfl, rfl, rfl⟩⟩

end responses

/-! ## `path.Join` on a route and real path elements -/

namespace path

theorem elements_ne_nil (p : GoString) : elements p ≠ [] := by
  cases p with
  | nil => simp [elements]
  | cons b rest =>
    simp only [elements]
    split
    · simp
    · split <;> simp

theorem elements_append_slash (a b : GoString) :
    elements (a ++ bSlash :: b) = elements a ++ elements b := by
  induction a with
  | nil => simp [elements]
  | cons c a ih =>
    by_cases hc : c = bSlash
    · simp [elements, hc, ih]
    · cases h : elements a with
      | nil => exact absurd h (elements_ne_nil a)
      | cons e es => simp [elements, hc, ih, h]

theorem elements_of_not_mem (e : GoString) (h : bSlash ∉ e) : elements e = [e] := by
  induction e with
  | nil => simp [elements]
  | cons c e ih =>
    have hc : c ≠ bSlash := fun hc => h (by simp [hc])
    have he : bSlash ∉ e := fun he => h (List.mem_cons_of_mem _ he)
    simp [elements, hc, ih he]

theorem elements_append_slashed (a : GoString) (es : List GoString)
    (hes : ∀ e ∈ es, bSlash ∉ e) : elements (a ++ slashed es) = elements a ++ es := by
  induction es generalizing a with
  | nil => simp [slashed]
  | cons e es ih =>
    have h1 : a ++ slashed (e :: es) = (a ++ bSlash :: e) ++ slashed es := by
      simp [slashed]
    rw [h1, ih (a ++ bSlash :: e) (fun x hx => hes x (List.mem_cons_of_mem _ hx)),
      elements_append_slash, elements_of_not_mem e (hes e (List.mem_cons_self _ _))]
    simp

theorem joinBuf_of_ne_nil (buf : GoString) (es : List GoString) (h : buf ≠ []) :
    joinBuf buf es = buf ++ slashed es := by
  induction es generalizing buf with
  | nil => simp [joinBuf, slashed]
  | cons e es ih =>
    simp only [joinBuf, h, ne_eq, not_false_eq_true, true_or, if_true]
    rw [ih _ (by simp)]
    simp [slashed]

theorem cleanStep_of_isElement (rooted : Bool) (buf : CleanBuf) (e : GoString)
    (he : IsElement e) : cleanStep rooted buf e = { buf with out := buf.out ++ [e] } := by
  obtain ⟨h1, _, h3, h4⟩ := he
  simp [cleanStep, h1, h3, h4]

theorem foldl_cleanStep_of_isElement (rooted : Bool) (buf : CleanBuf) (es : List GoString)
    (hes : ∀ e ∈ es, IsElement e) :
    es.foldl (cleanStep rooted) buf = { buf with out := buf.out ++ es } := by
  induction es generalizing buf with
  | nil => simp
  | cons e es ih =>
    rw [List.foldl_cons, cleanStep_of_isElement rooted buf e (hes e (List.mem_cons_self _ _)),
      ih _ (fun x hx => hes x (List.mem_cons_of_mem _ hx))]
    simp

theorem joinElems_cons (x : GoString) (es : List GoString) :
    joinElems (x :: es) = x ++ slashed es := by
  induction es generalizing x with
  | nil => simp [joinElems, slashed]
  | cons e es ih => simp [joinElems, slashed, ih e]

theorem slashed_append (xs es : List GoString) :
    slashed (xs ++ es) = slashed xs ++ slashed es := by
  induction xs with
  | nil => simp [slashed]
  | cons x xs ih => simp [slashed, ih]

theorem joinElems_append (xs es : List GoString) (h : xs ≠ []) :
    joinElems (xs ++ es) = joinElems xs ++ slashed es := by
  cases xs with
  | nil => exact absurd rfl h
  | cons x xs =>
    rw [List.cons_append, joinElems_cons, joinElems_cons, slashed_append, List.append_assoc]

/-- On a fixed route and real path elements, `Clean` changes nothing. -/
theorem Clean_route_slashed (r : GoString) (es : List GoString) (hr : IsRoute r)
    (hes : ∀ e ∈ es, IsElement e) : Clean (r ++ slashed es) = r ++ slashed es := by
  obtain ⟨hhead, hne, hclean⟩ := hr
  have hrne : r ≠ [] := by intro h; simp [h] at hhead
  have hhead2 : (r ++ slashed es).head? = some bSlash := by
    cases r with
    | nil => exact absurd rfl hrne
    | cons c r => simpa using hhead
  have hne2 : r ++ slashed es ≠ [] := by simp [hrne]
  have helems : elements (r ++ slashed es) = elements r ++ es :=
    elements_append_slashed r es (fun e he => (hes e he).2.1)
  have hr2 : bSlash :: joinElems
      ((elements r).foldl (cleanStep true) { out := [], dotdot := 0 }).out = r := by
    have := hclean
    simp only [Clean, hrne, if_false, hhead, decide_True, if_true] at this
    exact this
  have hout : ((elements r).foldl (cleanStep true) { out := [], dotdot := 0 }).out ≠ [] := by
    intro h
    rw [h] at hr2
    exact hne (by simpa [joinElems] using hr2.symm)
  simp only [Clean, hne2, if_false, hhead2, decide_True, if_true, helems, List.foldl_append]
  rw [foldl_cleanStep_of_isElement true _ es hes]
  simp only
  rw [joinElems_append _ es hout, ← List.cons_append, hr2]

/-- `path.Join` of a fixed route and real path elements is the route followed by the
elements, each behind one slash; its path elements are those of the route followed by the
given elements. -/
theorem Join_route (r : GoString) (es : List GoString) (hr : IsRoute r)
    (hes : ∀ e ∈ es, IsElement e) :
    Join (r :: es) = r ++ slashed es ∧ elements (Join (r :: es)) = elements r ++ es := by
  have hrne : r ≠ [] := by intro h; simp [h, IsRoute] at hr
  have hlen : ((r :: es).map List.length).sum ≠ 0 := by
    have : 0 < r.length := List.length_pos.mpr hrne
    simp only [List.map_cons, List.sum_cons]
    omega
  have hj : Join (r :: es) = r ++ slashed es := by
    simp only [Join, hlen, if_false, joinBuf, ne_eq, hrne, not_false_eq_true, or_true, if_true,
      not_true_eq_false, List.nil_append]
    rw [joinBuf_of_ne_nil r es hrne, Clean_route_slashed r es hr hes]
  exact ⟨hj, by rw [hj]; exact elements_append_slashed r es (fun e he => (hes e he).2.1)⟩

/-- A path that consists of the elements of the route followed by `es` has a shape that
`es` matches. -/
theorem hasShape_of_elements (p r : GoString) (es : List GoString) (shape : List Seg)
    (h : elements p = elements r ++ es) (hm : segsMatch shape es = true) :
    HasShape p r shape = true := by
  simp [HasShape, h, hm]

end path

/-! ## `url.QueryEscape` and `url.QueryUnescape` -/

namespace url

set_option maxRecDepth 100000 in
theorem hex_roundtrip : ∀ c : Byte, ishex (upperhex (c.val / 16)) = true ∧
    ishex (upperhex (c.val % 16)) = true ∧
    (Fin.ofNat (unhex (upperhex (c.val / 16)) * 16 + unhex (upperhex (c.val % 16))) : Byte)
      = c := by
  decide

set_option maxRecDepth 100000 in
theorem not_mem_escapeByte : ∀ c : Byte, bSlash ∉ escapeByte c := by
  decide

set_option maxRecDepth 100000 in
theorem plain_of_not_shouldEscape :
    ∀ c : Byte, shouldEscape c = false → c ≠ bPercent ∧ c ≠ bPlus := by
  decide

theorem escapeByte_ne_nil (c : Byte) : escapeByte c ≠ [] := by
  unfold escapeByte
  split
  · simp
  · split <;> simp

/-- Decoding undoes the escape of one byte in front of any rest. -/
theorem QueryUnescape_escapeByte_append (c : Byte) (rest : GoString) :
    QueryUnescape (escapeByte c ++ rest) = (QueryUnescape rest).map (fun t => c :: t) := by
  unfold escapeByte
  by_cases hs : c = bSpace
  · have h1 : bPlus ≠ bPercent := by decide
    simp only [hs, if_true, List.singleton_append]
    rcases rest with _ | ⟨a, _ | ⟨b, rest2⟩⟩ <;> simp [QueryUnescape, h1]
  · by_cases he : shouldEscape c = true
    · obtain ⟨h1, h2, h3⟩ := hex_roundtrip c
      simp [hs, he, QueryUnescape, h1, h2, h3]
    · have he2 : shouldEscape c = false := by simpa using he
      obtain ⟨h1, h2⟩ := plain_of_not_shouldEscape c he2
      simp only [hs, he2, if_false, List.singleton_append, Bool.false_eq_true]
      rcases rest with _ | ⟨a, _ | ⟨b, rest2⟩⟩ <;> simp [QueryUnescape, h1, h2]

/-- `url.QueryUnescape` recovers every string from its `url.QueryEscape`. -/
theorem QueryUnescape_QueryEscape (s : GoString) : QueryUnescape (QueryEscape s) = some s := by
  induction s with
  | nil => simp [QueryEscape, QueryUnescape]
  | cons c s ih => simp [QueryEscape, QueryUnescape_escapeByte_append, ih]

theorem QueryEscape_injective (s t : GoString) (h : QueryEscape s = QueryEscape t) : s = t := by
  have := congrArg QueryUnescape h
  simpa [QueryUnescape_QueryEscape] using this

theorem not_mem_QueryEscape (s : GoString) : bSlash ∉ QueryEscape s := by
  induction s with
  | nil => simp [QueryEscape]
  | cons c s ih => simp [QueryEscape, not_mem_escapeByte c, ih]

theorem QueryEscape_ne_nil (s : GoString) (h : s ≠ []) : QueryEscape s ≠ [] := by
  cases s with
  | nil => exact absurd rfl h
  | cons c s => simp [QueryEscape, escapeByte_ne_nil c]

/-- The escaped form of an identifier other than the empty string, `.` and `..` is a real
path element. -/
theorem isElement_QueryEscape (s : GoString) (h : IsIdentifier s) :
    path.IsElement (QueryEscape s) := by
  obtain ⟨h1, h2, h3⟩ := h
  refine ⟨QueryEscape_ne_nil s h1, not_mem_QueryEscape s, ?_, ?_⟩
  · intro hd
    exact h2 (QueryEscape_injective s sDot (hd.trans (by decide)))
  · intro hd
    exact h3 (QueryEscape_injective s sDotDot (hd.trans (by decide)))

end url

/-! ## `strconv.Itoa` -/

namespace strconv

theorem formatBits_mem (fuel u : Nat) (acc : GoString) :
    ∀ b ∈ formatBits fuel u acc, (48 ≤ b.val ∧ b.val ≤ 57) ∨ b ∈ acc := by
  induction fuel generalizing u acc with
  | zero => intro b hb; exact Or.inr (by simpa [formatBits] using hb)
  | succ fuel ih =>
    intro b hb
    simp only [formatBits] at hb
    split at hb
    · next hu =>
      rcases List.mem_cons.mp hb with h | h
      · left
        have : (Fin.ofNat (48 + u) : Byte).val = 48 + u := by
          simp only [Fin.ofNat]; omega
        rw [h, this]; omega
      · exact Or.inr h
    · rcases ih _ _ b hb with h | h
      · exact Or.inl h
      · rcases List.mem_cons.mp h with h | h
        · left
          have : (Fin.ofNat (48 + u % 10) : Byte).val = 48 + u % 10 := by
            simp only [Fin.ofNat]; omega
          rw [h, this]; omega
        · exact Or.inr h

theorem formatBits_ne_nil (fuel u : Nat) (acc : GoString) (h : 0 < fuel ∨ acc ≠ []) :
    formatBits fuel u acc ≠ [] := by
  induction fuel generalizing u acc with
  | zero =>
    rcases h with h | h
    · omega
    · simpa [formatBits] using h
  | succ fuel ih =>
    simp only [formatBits]
    split
    · simp
    · exact ih _ _ (Or.inr (by simp))

theorem Itoa_mem (i : Int) : ∀ b ∈ Itoa i, (48 ≤ b.val ∧ b.val ≤ 57) ∨ b = bMinus := by
  intro b hb
  unfold Itoa at hb
  split at hb
  · rcases List.mem_cons.mp hb with h | h
    · exact Or.inr h
    · rcases formatBits_mem _ _ _ b h with h | h
      · exact Or.inl h
      · simp at h
  · rcases formatBits_mem _ _ _ b hb with h | h
    · exact Or.inl h
    · simp at h

theorem Itoa_ne_nil (i : Int) : Itoa i ≠ [] := by
  unfold Itoa
  split
  · simp
  · exact formatBits_ne_nil _ _ _ (Or.inl (Nat.succ_pos _))

/-- The decimal rendering of an integer is a real path element. -/
theorem isElement_Itoa (i : Int) : path.IsElement (Itoa i) := by
  have hdot : bDot ∉ Itoa i := by
    intro h
    rcases Itoa_mem i bDot h with h | h
    · revert h; decide
    · revert h; decide
  refine ⟨Itoa_ne_nil i, ?_, ?_, ?_⟩
  · intro h
    rcases Itoa_mem i bSlash h with h | h
    · revert h; decide
    · revert h; decide
  · intro h; exact hdot (by rw [h]; simp [sDot])
  · intro h; exact hdot (by rw [h]; simp [sDotDot])

end strconv

/-! ## Request paths -/

section RequestPaths

variable {Ctx Auth Res Resp : Type}

/-- A `v2` method that hands the single request `c` to the transport, whatever the
transport answers. -/
theorem requestPaths_of (g : Resp × Option errors.EdgeX) (c : Call) (r : Result Resp)
    (hr : r = (match g with
      | (res, err) =>
        match err with
        | some err =>
          { res := res, edgexError := some (errors.NewCommonEdgeXWrapper err), calls := [c] }
        | none => { res := res, edgexError := none, calls := [c] })) :
    r.requestPaths = [c.requestPath] := by
  obtain ⟨res, err⟩ := g
  cases err <;> simp [hr, Result.requestPaths]

/-- A method of the transmission client that hands the single request `c` to the
transport. -/
theorem requestPaths_auth_of (g : Resp × Option errors.EdgeX) (c : CallAuth Auth)
    (r : ResultAuth Auth Resp)
    (hr : r = (match g with
      | (res, err) =>
        match err with
        | some err =>
          { res := res, edgexError := some (errors.NewCommonEdgeXWrapper err), calls := [c] }
        | none => { res := res, edgexError := none, calls := [c] })) :
    r.requestPaths = [c.requestPath] := by
  obtain ⟨res, err⟩ := g
  cases err <;> simp [hr, ResultAuth.requestPaths]

/-- A single request whose path is `path.Join` of a fixed route and real path elements
that match a shape. -/
theorem path.handsShape_join (r : GoString) (es : List GoString) (shape : List path.Seg)
    (handed : List GoString) (hr : path.IsRoute r) (hes : ∀ e ∈ es, path.IsElement e)
    (hm : path.segsMatch shape es = true) (hh : handed = [path.Join (r :: es)]) :
    handed = [r ++ path.slashed es] ∧ path.HandsShape handed r shape = true := by
  obtain ⟨h1, h2⟩ := path.Join_route r es hr hes
  refine ⟨by rw [hh, h1], ?_⟩
  rw [hh]
  exact path.hasShape_of_elements _ r es shape h2 hm

/-- C6, as stated, fails for the identifiers `..`, `.` and the empty string: with the
sample constants `DeleteByName` of `..` asks to delete `/api/v2/deviceprofile`, and
`DeviceProfileByName` of `.` and of the empty string ask for `/api/v2/deviceprofile/name`;
none of these paths has the identifier as an element behind the fixed elements. -/
theorem dot_identifiers_leave_no_segment :
    (DeviceProfileClient.DeleteByName sampleV2 (deleteAnswer (0 : Nat))
        (DeviceProfileClient.NewDeviceProfileClient (gs "http://localhost") :
          DeviceProfileClient Nat) () (gs "..")).requestPaths
      = [gs "/api/v2/deviceprofile"] ∧
    path.HandsShape
      (DeviceProfileClient.DeleteByName sampleV2 (deleteAnswer (0 : Nat))
        (DeviceProfileClient.NewDeviceProfileClient (gs "http://localhost") :
          DeviceProfileClient Nat) () (gs "..")).requestPaths
      sampleV2.ApiDeviceProfileRoute [.fixed sampleV2.Name, .ident (gs "..")] = false ∧
    (DeviceProfileClient.DeviceProfileByName sampleV2 (getAnswer (0 : Nat))
        (DeviceProfileClient.NewDeviceProfileClient (gs "http://localhost") :
          DeviceProfileClient Nat) () (gs ".")).requestPaths
      = [gs "/api/v2/deviceprofile/name"] ∧
    path.HandsShape
      (DeviceProfileClient.DeviceProfileByName sampleV2 (getAnswer (0 : Nat))
        (DeviceProfileClient.NewDeviceProfileClient (gs "http://localhost") :
          DeviceProfileClient Nat) () (gs ".")).requestPaths
      sampleV2.ApiDeviceProfileRoute [.fixed sampleV2.Name, .ident (gs ".")] = false ∧
    (DeviceProfileClient.DeviceProfileByName sampleV2 (getAnswer (0 : Nat))
        (DeviceProfileClient.NewDeviceProfileClient (gs "http://localhost") :
          DeviceProfileClient Nat) () (gs "")).requestPaths
      = [gs "/api/v2/deviceprofile/name"] ∧
    path.HandsShape
      (DeviceProfileClient.DeviceProfileByName sampleV2 (getAnswer (0 : Nat))
        (DeviceProfileClient.NewDeviceProfileClient (gs "http://localhost") :
          DeviceProfileClient Nat) () (gs "")).requestPaths
      sampleV2.ApiDeviceProfileRoute [.fixed sampleV2.Name, .ident (gs "")] = false := by
  decide

/-- C6, amended. For every identifier other than the empty string, `.` and `..`
(strings with spaces or slashes included), the request path built by `DeleteByName`,
`DeviceProfileByName`, `DeviceProfilesByModel`, `DeviceProfilesByManufacturer`,
`DeviceProfilesByManufacturerAndModel` and (on a cache miss)
`DeviceResourceByProfileNameAndResourceName` is the fixed route followed by the fixed
elements and the `url.QueryEscape` of the identifiers, each behind one slash; every
identifier is exactly one path element in its position behind the fixed elements, and
`url.QueryUnescape` of that element recovers the identifier. The route constants are fixed
routes and real path elements. -/
theorem escaped_identifier_is_one_segment [Inhabited Res] [Inhabited Resp]
    (k : v2.Constants) (hk : k.WellFormed)
    (D : utils.DeleteRequest Ctx Resp) (G : utils.GetRequest Ctx Resp)
    (GR : utils.GetRequest Ctx Res) (client : DeviceProfileClient Res) (ctx : Ctx)
    (name model manufacturer profileName resourceName : GoString) (offset limit : Int)
    (hname : IsIdentifier name) (hmodel : IsIdentifier model)
    (hmanufacturer : IsIdentifier manufacturer) (hprofile : IsIdentifier profileName)
    (hresource : IsIdentifier resourceName)
    (habsent : client.resourcesCache
      (DeviceProfileClient.resourceMapKey profileName resourceName) = none) :
    (((DeviceProfileClient.DeleteByName k D client ctx name).requestPaths
        = [k.ApiDeviceProfileRoute ++ path.slashed [k.Name, url.QueryEscape name]]) ∧
      path.HandsShape (DeviceProfileClient.DeleteByName k D client ctx name).requestPaths
        k.ApiDeviceProfileRoute [.fixed k.Name, .ident name] = true) ∧
    (((DeviceProfileClient.DeviceProfileByName k G client ctx name).requestPaths
        = [k.ApiDeviceProfileRoute ++ path.slashed [k.Name, url.QueryEscape name]]) ∧
      path.HandsShape (DeviceProfileClient.DeviceProfileByName k G client ctx name).requestPaths
        k.ApiDeviceProfileRoute [.fixed k.Name, .ident name] = true) ∧
    (((DeviceProfileClient.DeviceProfilesByModel k G client ctx model offset limit).requestPaths
        = [k.ApiDeviceProfileRoute ++ path.slashed [k.Model, url.QueryEscape model]]) ∧
      path.HandsShape (DeviceProfileClient.DeviceProfilesByModel k G client ctx model offset limit).requestPaths
        k.ApiDeviceProfileRoute [.fixed k.Model, .ident model] = true) ∧
    (((DeviceProfileClient.DeviceProfilesByManufacturer k G client ctx manufacturer offset limit).requestPaths
        = [k.ApiDeviceProfileRoute ++ path.slashed [k.Manufacturer, url.QueryEscape manufacturer]]) ∧
      path.HandsShape (DeviceProfileClient.DeviceProfilesByManufacturer k G client ctx manufacturer offset limit).requestPaths
        k.ApiDeviceProfileRoute [.fixed k.Manufacturer, .ident manufacturer] = true) ∧
    (((DeviceProfileClient.DeviceProfilesByManufacturerAndModel k G client ctx manufacturer model offset limit).requestPaths
        = [k.ApiDeviceProfileRoute ++ path.slashed [k.Manufacturer, url.QueryEscape manufacturer,
          k.Model, url.QueryEscape model]]) ∧
      path.HandsShape (DeviceProfileClient.DeviceProfilesByManufacturerAndModel k G client ctx manufacturer model offset limit).requestPaths
        k.ApiDeviceProfileRoute [.fixed k.Manufacturer, .ident manufacturer,
          .fixed k.Model, .ident model] = true) ∧
    ((((DeviceProfileClient.DeviceResourceByProfileNameAndResourceName k GR client ctx
          profileName resourceName).2.requestPaths
        = [k.ApiDeviceResourceRoute ++ path.slashed [k.Profile, url.QueryEscape profileName,
            k.Resource, url.QueryEscape resourceName]]) ∧
      path.HandsShape (DeviceProfileClient.DeviceResourceByProfileNameAndResourceName k GR
          client ctx profileName resourceName).2.requestPaths
        k.ApiDeviceResourceRoute [.fixed k.Profile, .ident profileName,
          .fixed k.Resource, .ident resourceName] = true)) ∧
    (url.QueryUnescape (url.QueryEscape name) = some name ∧
      bSlash ∉ url.QueryEscape name) := by
  have ename := url.isElement_QueryEscape name hname
  have emodel := url.isElement_QueryEscape model hmodel
  have emanufacturer := url.isElement_QueryEscape manufacturer hmanufacturer
  have eprofile := url.isElement_QueryEscape profileName hprofile
  have eresource := url.isElement_QueryEscape resourceName hresource
  obtain ⟨hk1, hk2, hName, hModel, hManufacturer, hProfile, hResource⟩ := hk
  refine ⟨?_, ?_, ?_, ?_, ?_, ?_, url.QueryUnescape_QueryEscape name,
    url.not_mem_QueryEscape name⟩
  · exact path.handsShape_join _ _ _ _ hk1 (by simp [*]) (by simp [path.segsMatch, url.QueryUnescape_QueryEscape])
      (by unfold DeviceProfileClient.DeleteByName; exact requestPaths_of _ _ _ rfl)
  · exact path.handsShape_join _ _ _ _ hk1 (by simp [*]) (by simp [path.segsMatch, url.QueryUnescape_QueryEscape])
      (by unfold DeviceProfileClient.DeviceProfileByName; exact requestPaths_of _ _ _ rfl)
  · exact path.handsShape_join _ _ _ _ hk1 (by simp [*]) (by simp [path.segsMatch, url.QueryUnescape_QueryEscape])
      (by unfold DeviceProfileClient.DeviceProfilesByModel; exact requestPaths_of _ _ _ rfl)
  · exact path.handsShape_join _ _ _ _ hk1 (by simp [*]) (by simp [path.segsMatch, url.QueryUnescape_QueryEscape])
      (by unfold DeviceProfileClient.DeviceProfilesByManufacturer; exact requestPaths_of _ _ _ rfl)
  · exact path.handsShape_join _ _ _ _ hk1 (by simp [*]) (by simp [path.segsMatch, url.QueryUnescape_QueryEscape])
      (by unfold DeviceProfileClient.DeviceProfilesByManufacturerAndModel; exact requestPaths_of _ _ _ rfl)
  · exact path.handsShape_join _ _ _ _ hk2 (by simp [*])
      (by simp [path.segsMatch, url.QueryUnescape_QueryEscape])
      (by rw [DeviceProfileClient.deviceResource_miss k GR client ctx profileName
            resourceName habsent]; rfl)

/-- Witness for the amended C6: identifiers with a space and with a slash. -/
theorem escaped_identifier_is_one_segment_witness :
    sampleV2.WellFormed ∧ IsIdentifier (gs "my profile") ∧ IsIdentifier (gs "a/b") ∧
    (DeviceProfileClient.DeleteByName sampleV2 (deleteAnswer (0 : Nat))
        (DeviceProfileClient.NewDeviceProfileClient (gs "http://localhost") :
          DeviceProfileClient Nat) () (gs "my profile")).requestPaths
      = [gs "/api/v2/deviceprofile/name/my+profile"] :=
  ⟨by decide, by decide, by decide,
   (escaped_identifier_is_one_segment sampleV2 (by decide) (deleteAnswer (0 : Nat))
      (getAnswer (0 : Nat)) (getAnswer (0 : Nat))
      (DeviceProfileClient.NewDeviceProfileClient (gs "http://localhost")) ()
      (gs "my profile") (gs "a/b") (gs "acme") (gs "my profile") (gs "a/b") 0 10
      (by decide) (by decide) (by decide) (by decide) (by decide) rfl).1.1.trans
        (by decide)⟩

/-- A single request whose path is `path.Join` of a fixed route and real path elements:
the path is the route followed by the elements, each behind one slash, and its path
elements are those of the route followed by the given ones. -/
theorem path.handsElements_join (r : GoString) (es : List GoString) (handed : List GoString)
    (hr : path.IsRoute r) (hes : ∀ e ∈ es, path.IsElement e)
    (hh : handed = [path.Join (r :: es)]) :
    handed = [r ++ path.slashed es] ∧ handed.map path.elements = [path.elements r ++ es] := by
  obtain ⟨h1, h2⟩ := path.Join_route r es hr hes
  exact ⟨by rw [hh, h1], by rw [hh]; simp [h2]⟩

/-- C7 holds of the specification and fails on the code: the transmission client hands the
raw parameter value to `path.Join`, where the device-profile client of the same repository
escapes every identifier. With the sample constants:
* `TransmissionById` of `a/b` hands `/api/v3/transmission/id/a/b` to the transport, which
  is not the route followed by the URL-escaped value (`/api/v3/transmission/id/a%2Fb`) and
  has one path element more than the path built for the id `ab`;
* `TransmissionById` of `../status/SENT` hands `/api/v3/transmission/status/SENT`, the path
  of another route;
* `TransmissionsByStatus` of `a b` hands the path with the unescaped space;
* `DeviceProfileByName` of `a/b` hands `/api/v2/deviceprofile/name/a%2Fb`, one escaped
  element. -/
theorem transmission_parameter_not_escaped :
    (TransmissionClient.TransmissionById sampleCommon (getAnswerAuth (0 : Nat))
        (TransmissionClient.NewTransmissionClient (gs "http://localhost") ()) ()
        (gs "a/b")).requestPaths = [gs "/api/v3/transmission/id/a/b"] ∧
    sampleCommon.ApiTransmissionRoute ++ path.slashed [sampleCommon.Id, url.QueryEscape (gs "a/b")]
      = gs "/api/v3/transmission/id/a%2Fb" ∧
    (TransmissionClient.TransmissionById sampleCommon (getAnswerAuth (0 : Nat))
        (TransmissionClient.NewTransmissionClient (gs "http://localhost") ()) ()
        (gs "a/b")).requestPaths
      ≠ [sampleCommon.ApiTransmissionRoute ++
          path.slashed [sampleCommon.Id, url.QueryEscape (gs "a/b")]] ∧
    ((TransmissionClient.TransmissionById sampleCommon (getAnswerAuth (0 : Nat))
        (TransmissionClient.NewTransmissionClient (gs "http://localhost") ()) ()
        (gs "a/b")).requestPaths.map (fun p => (path.elements p).length) = [7] ∧
     (TransmissionClient.TransmissionById sampleCommon (getAnswerAuth (0 : Nat))
        (TransmissionClient.NewTransmissionClient (gs "http://localhost") ()) ()
        (gs "ab")).requestPaths.map (fun p => (path.elements p).length) = [6]) ∧
    (TransmissionClient.TransmissionById sampleCommon (getAnswerAuth (0 : Nat))
        (TransmissionClient.NewTransmissionClient (gs "http://localhost") ()) ()
        (gs "../status/SENT")).requestPaths = [gs "/api/v3/transmission/status/SENT"] ∧
    (TransmissionClient.TransmissionsByStatus sampleCommon (getAnswerAuth (0 : Nat))
        (TransmissionClient.NewTransmissionClient (gs "http://localhost") ()) ()
        (gs "a b") 0 10).requestPaths = [gs "/api/v3/transmission/status/a b"] ∧
    url.QueryEscape (gs "a b") = gs "a+b" ∧
    (DeviceProfileClient.DeviceProfileByName sampleV2 (getAnswer (0 : Nat))
        (DeviceProfileClient.NewDeviceProfileClient (gs "http://localhost") :
          DeviceProfileClient Nat) () (gs "a/b")).requestPaths
      = [gs "/api/v2/deviceprofile/name/a%2Fb"] := by
  decide

/-- Where the transmission client builds the path with the escaped value: for every
string `id`, `status` and `subscriptionName` other than the empty string, `.` and `..`
that `url.QueryEscape` leaves as it is (no byte of it needs escaping), the request path
that `TransmissionById`, `TransmissionsByStatus`, `TransmissionsBySubscriptionName` and
`TransmissionsByNotificationId` hand to the transport is the fixed route elements joined
by slashes followed by exactly one further element, the URL-escaped parameter value; and
for all integers `start`, `end_` and `age`, `TransmissionsByTimeRange` and
`DeleteProcessedTransmissionsByAge` build the fixed elements interleaved with the decimal
renderings of the integers. The route constants are a fixed route and real path
elements. -/
theorem transmission_request_paths [Inhabited Resp] (k : common.Constants)
    (hk : k.WellFormed) (G : utils.GetRequestAuth Ctx Auth Resp)
    (D : utils.DeleteRequestAuth Ctx Auth Resp) (client : TransmissionClient Auth) (ctx : Ctx)
    (id status subscriptionName : GoString) (start end_ age offset limit : Int)
    (hid : IsIdentifier id) (hstatus : IsIdentifier status)
    (hsubscription : IsIdentifier subscriptionName)
    (hidPlain : url.QueryEscape id = id) (hstatusPlain : url.QueryEscape status = status)
    (hsubscriptionPlain : url.QueryEscape subscriptionName = subscriptionName) :
    ((TransmissionClient.TransmissionById k G client ctx id).requestPaths
        = [k.ApiTransmissionRoute ++ path.slashed [k.Id, url.QueryEscape id]] ∧
      (TransmissionClient.TransmissionById k G client ctx id).requestPaths.map path.elements
        = [path.elements k.ApiTransmissionRoute ++ [k.Id, url.QueryEscape id]]) ∧
    ((TransmissionClient.TransmissionsByStatus k G client ctx status offset limit).requestPaths
        = [k.ApiTransmissionRoute ++ path.slashed [k.Status, url.QueryEscape status]] ∧
      (TransmissionClient.TransmissionsByStatus k G client ctx status offset limit).requestPaths.map path.elements
        = [path.elements k.ApiTransmissionRoute ++ [k.Status, url.QueryEscape status]]) ∧
    ((TransmissionClient.TransmissionsBySubscriptionName k G client ctx subscriptionName offset limit).requestPaths
        = [k.ApiTransmissionRoute ++ path.slashed [k.Subscription, k.Name, url.QueryEscape subscriptionName]] ∧
      (TransmissionClient.TransmissionsBySubscriptionName k G client ctx subscriptionName offset limit).requestPaths.map path.elements
        = [path.elements k.ApiTransmissionRoute ++ [k.Subscription, k.Name, url.QueryEscape subscriptionName]]) ∧
    ((TransmissionClient.TransmissionsByNotificationId k G client ctx id offset limit).requestPaths
        = [k.ApiTransmissionRoute ++ path.slashed [k.Notification, k.Id, url.QueryEscape id]] ∧
      (TransmissionClient.TransmissionsByNotificationId k G client ctx id offset limit).requestPaths.map path.elements
        = [path.elements k.ApiTransmissionRoute ++ [k.Notification, k.Id, url.QueryEscape id]]) ∧
    ((TransmissionClient.TransmissionsByTimeRange k G client ctx start end_ offset limit).requestPaths
        = [k.ApiTransmissionRoute ++ path.slashed [k.Start, strconv.Itoa start, k.End, strconv.Itoa end_]] ∧
      (TransmissionClient.TransmissionsByTimeRange k G client ctx start end_ offset limit).requestPaths.map path.elements
        = [path.elements k.ApiTransmissionRoute ++ [k.Start, strconv.Itoa start, k.End, strconv.Itoa end_]]) ∧
    ((TransmissionClient.DeleteProcessedTransmissionsByAge k D client ctx age).requestPaths
        = [k.ApiTransmissionRoute ++ path.slashed [k.Age, strconv.Itoa age]] ∧
      (TransmissionClient.DeleteProcessedTransmissionsByAge k D client ctx age).requestPaths.map path.elements
        = [path.elements k.ApiTransmissionRoute ++ [k.Age, strconv.Itoa age]]) := by
  have hs := strconv.isElement_Itoa start
  have he := strconv.isElement_Itoa end_
  have ha := strconv.isElement_Itoa age
  have eid := url.isElement_QueryEscape id hid
  have estatus := url.isElement_QueryEscape status hstatus
  have esubscription := url.isElement_QueryEscape subscriptionName hsubscription
  rw [hidPlain] at eid ⊢
  rw [hstatusPlain] at estatus ⊢
  rw [hsubscriptionPlain] at esubscription ⊢
  obtain ⟨hRoute, hId, hStart, hEnd, hStatus, hAge, hSubscription, hName, hNotification⟩ := hk
  refine ⟨?_, ?_, ?_, ?_, ?_, ?_⟩
  · exact path.handsElements_join _ _ _ hRoute (by simp [*])
      (by unfold TransmissionClient.TransmissionById; exact requestPaths_auth_of _ _ _ rfl)
  · exact path.handsElements_join _ _ _ hRoute (by simp [*])
      (by unfold TransmissionClient.TransmissionsByStatus; exact requestPaths_auth_of _ _ _ rfl)
  · exact path.handsElements_join _ _ _ hRoute (by simp [*])
      (by unfold TransmissionClient.TransmissionsBySubscriptionName; exact requestPaths_auth_of _ _ _ rfl)
  · exact path.handsElements_join _ _ _ hRoute (by simp [*])
      (by unfold TransmissionClient.TransmissionsByNotificationId; exact requestPaths_auth_of _ _ _ rfl)
  · exact path.handsElements_join _ _ _ hRoute (by simp [*])
      (by unfold TransmissionClient.TransmissionsByTimeRange; exact requestPaths_auth_of _ _ _ rfl)
  · exact path.handsElements_join _ _ _ hRoute (by simp [*])
      (by unfold TransmissionClient.DeleteProcessedTransmissionsByAge; exact requestPaths_auth_of _ _ _ rfl)

/-- An instance of `transmission_request_paths`: an id, a status and a subscription name
without bytes to escape, and a negative age. -/
theorem transmission_request_paths_witness :
    sampleCommon.WellFormed ∧ IsIdentifier (gs "7a1707f0") ∧
    url.QueryEscape (gs "7a1707f0") = gs "7a1707f0" ∧
    (TransmissionClient.TransmissionById sampleCommon (getAnswerAuth (0 : Nat))
        (TransmissionClient.NewTransmissionClient (gs "http://localhost") ()) ()
        (gs "7a1707f0")).requestPaths = [gs "/api/v3/transmission/id/7a1707f0"] ∧
    (TransmissionClient.DeleteProcessedTransmissionsByAge sampleCommon
        (deleteAnswerAuth (0 : Nat))
        (TransmissionClient.NewTransmissionClient (gs "http://localhost") ()) ()
        (-5)).requestPaths = [gs "/api/v3/transmission/age/-5"] :=
  ⟨by decide, by decide, by decide,
   (transmission_request_paths sampleCommon (by decide) (getAnswerAuth (0 : Nat))
      (deleteAnswerAuth (0 : Nat))
      (TransmissionClient.NewTransmissionClient (gs "http://localhost") ()) ()
      (gs "7a1707f0") (gs "SENT") (gs "my-sub") 10 20 (-5) 0 10
      (by decide) (by decide) (by decide) (by decide) (by decide) (by decide)).1.1.trans
        (by decide),
   (transmission_request_paths sampleCommon (by decide) (getAnswerAuth (0 : Nat))
      (deleteAnswerAuth (0 : Nat))
      (TransmissionClient.NewTransmissionClient (gs "http://localhost") ()) ()
      (gs "7a1707f0") (gs "SENT") (gs "my-sub") 10 20 (-5) 0 10
      (by decide) (by decide) (by decide) (by decide) (by decide) (by decide)).2.2.2.2.2.1.trans
        (by decide)⟩

end RequestPaths

end GoContracts
